import Mathlib

/-!
Verification development for the ALPS GlidePoint PS/2 trackpad driver
(`VoodooPS2Trackpad/VoodooPS2ALPSGlidePoint.cpp`).

The driver's data model and the operations relevant to the framing,
decoding, bitmap reconstruction, identification and gesture layers are
embedded as executable Lean definitions, translated from the C++ source,
and the stated properties of the specification are proved or refuted
against them.  Bytes are modelled as `Nat` (masked where the source
masks), C `int` values as `Int` with C truncating division (`Int.tdiv`,
`Int.tmod`), and the driver's mutable object state as explicit state
records threaded through each operation.
-/

namespace Alps

/-- Sign extension of a byte value, modelling a C `(SInt8)` cast. -/
def sint8 (n : Nat) : Int :=
  if n % 256 < 128 then ((n % 256 : Nat) : Int) else ((n % 256 : Nat) : Int) - 256

/-! ## Packet framer (`interruptOccurred`, lines 283-319)

The interrupt handler assembles the raw byte stream into packets.  Its
per-byte state is the in-progress buffer (`_packetByteCount` plus the bytes
already written at the ring-buffer head); the embedding also records the
stream index at which the current buffer began, so that emitted packets can
be located inside the source byte stream. -/

/-- Test for the legacy bare PS/2 packet signature `(byte & 0xC8) == 0x08`. -/
def legacyStart (b : Nat) : Bool := b &&& 0xc8 == 0x08

/-- Framer state: the stream index where the in-progress packet began and
the bytes buffered so far (the source's `_packetByteCount` is `buf.length`). -/
structure FramerState where
  bufStart : Nat
  buf : List Nat
deriving DecidableEq

/-- One call of `interruptOccurred` for byte `b` arriving at stream index
`i`, for a profile with packet size `pktsize` and start-byte signature
`byte0`/`mask0`.  Returns the new framer state and the emitted packet, if
this byte completed one (`kPS2IR_packetReady`). -/
def interruptOccurred (pktsize mask0 byte0 : Nat) (st : FramerState) (i : Nat)
    (b : Nat) : FramerState × Option (Nat × List Nat) :=
  if st.buf.length == 0 && !legacyStart b && !(b &&& mask0 == byte0) then
    (st, none)
  else if decide (1 ≤ st.buf.length) && b == 0x80 then
    (⟨0, []⟩, none)
  else
    let start := if st.buf.length == 0 then i else st.bufStart
    let buf := st.buf ++ [b]
    if buf.length == pktsize || (buf.length == 3 && legacyStart (buf.headD 0)) then
      (⟨0, []⟩, some (start, buf))
    else
      (⟨start, buf⟩, none)

/-- Feed a byte sequence one byte at a time through `interruptOccurred`,
collecting every emitted packet together with the stream index of its
first byte. -/
def runFramer (pktsize mask0 byte0 : Nat) :
    FramerState → Nat → List Nat → List (Nat × List Nat)
  | _, _, [] => []
  | st, i, b :: rest =>
    let r := interruptOccurred pktsize mask0 byte0 st i b
    match r.2 with
    | none => runFramer pktsize mask0 byte0 r.1 (i + 1) rest
    | some pkt => pkt :: runFramer pktsize mask0 byte0 r.1 (i + 1) rest

/-- The framer's emitted packet is well-formed: its length is the profile
packet size, or exactly 3 with a legacy first byte. -/
def goodLength (pktsize : Nat) (pkt : Nat × List Nat) : Prop :=
  pkt.2.length = pktsize ∨ (pkt.2.length = 3 ∧ legacyStart (pkt.2.headD 0) = true)

/-- Invariant of the framer state at stream index `i`: a non-empty buffer
began at index `bufStart` and has consumed every byte since. -/
def FramerInv (st : FramerState) (i : Nat) : Prop :=
  st.buf = [] ∨ st.bufStart + st.buf.length = i

/-- Lower bound for the start index of any packet the framer can still emit. -/
def framerLow (st : FramerState) (i : Nat) : Nat :=
  match st.buf with
  | [] => i
  | _ => st.bufStart

theorem framerLow_le (st : FramerState) (i : Nat) (h : FramerInv st i) :
    framerLow st i ≤ i := by
  obtain ⟨s, buf⟩ := st
  cases buf with
  | nil => simp [framerLow]
  | cons a l =>
    rcases h with h | h
    · exact absurd h (by simp)
    · simp only [framerLow]
      simp at h
      omega

/-- Case analysis of a single framer step: the invariant is preserved, the
low-water mark never decreases, and an emitted packet starts at the
low-water mark, ends at the next stream index, and has a valid length. -/
theorem interruptOccurred_spec (pktsize mask0 byte0 : Nat) (st : FramerState)
    (i b : Nat) (hinv : FramerInv st i) (st' : FramerState)
    (out : Option (Nat × List Nat))
    (hstep : interruptOccurred pktsize mask0 byte0 st i b = (st', out)) :
    FramerInv st' (i + 1) ∧
    (out = none → framerLow st i ≤ framerLow st' (i + 1)) ∧
    (∀ s pb, out = some (s, pb) →
      goodLength pktsize (s, pb) ∧ s = framerLow st i ∧
      s + pb.length = i + 1 ∧ framerLow st' (i + 1) = i + 1) := by
  obtain ⟨sb, buf⟩ := st
  unfold interruptOccurred at hstep
  by_cases hdis : (buf.length == 0 && !legacyStart b && !(b &&& mask0 == byte0)) = true
  · rw [if_pos hdis] at hstep
    simp only [Bool.and_eq_true, beq_iff_eq] at hdis
    have hempty : buf = [] := List.length_eq_zero.mp hdis.1.1
    cases hstep
    subst hempty
    refine ⟨Or.inl rfl, ?_, ?_⟩
    · intro _; simp [framerLow]
    · intro s pb h; cases h
  · rw [if_neg hdis] at hstep
    by_cases habort : (decide (1 ≤ buf.length) && b == 0x80) = true
    · rw [if_pos habort] at hstep
      cases hstep
      refine ⟨Or.inl rfl, ?_, ?_⟩
      · intro _
        have h1 : framerLow ⟨sb, buf⟩ i ≤ i := framerLow_le _ i hinv
        have h2 : framerLow ⟨0, []⟩ (i + 1) = i + 1 := by simp [framerLow]
        omega
      · intro s pb h; cases h
    · rw [if_neg habort] at hstep
      simp only at hstep
      have hstart : (if buf.length == 0 then i else sb) = framerLow ⟨sb, buf⟩ i := by
        cases buf with
        | nil => simp [framerLow]
        | cons a l => simp [framerLow]
      have hsum : framerLow ⟨sb, buf⟩ i + buf.length = i := by
        cases buf with
        | nil => simp [framerLow]
        | cons a l =>
          rcases hinv with h | h
          · exact absurd h (by simp)
          · simpa [framerLow] using h
      by_cases hready : ((buf ++ [b]).length == pktsize
          || ((buf ++ [b]).length == 3 && legacyStart ((buf ++ [b]).headD 0))) = true
      · rw [if_pos hready] at hstep
        cases hstep
        refine ⟨Or.inl rfl, ?_, ?_⟩
        · intro h; cases h
        · intro s pb h
          injection h with h
          injection h with h1 h2
          subst h1
          subst h2
          simp only [Bool.or_eq_true, Bool.and_eq_true, beq_iff_eq] at hready
          refine ⟨?_, hstart.symm ▸ rfl, ?_, by simp [framerLow]⟩
          · rcases hready with h | h
            · exact Or.inl h
            · exact Or.inr h
          · rw [hstart]
            simp only [List.length_append, List.length_cons, List.length_nil]
            omega
      · rw [if_neg hready] at hstep
        cases hstep
        refine ⟨?_, ?_, ?_⟩
        · refine Or.inr ?_
          rw [hstart]
          simp only [List.length_append, List.length_cons, List.length_nil]
          omega
        · intro _
          have : framerLow ⟨if buf.length == 0 then i else sb, buf ++ [b]⟩ (i + 1)
              = framerLow ⟨sb, buf⟩ i := by
            rw [show framerLow ⟨if buf.length == 0 then i else sb, buf ++ [b]⟩ (i + 1)
                = (if buf.length == 0 then i else sb) from by
              cases buf <;> simp [framerLow]]
            exact hstart
          omega
        · intro s pb h; cases h

/-- Running the framer from a state satisfying the invariant yields only
well-formed packets, each starting at or after the low-water mark, and the
emitted packets occupy pairwise disjoint, ordered byte ranges. -/
theorem runFramer_spec (pktsize mask0 byte0 : Nat) :
    ∀ (bytes : List Nat) (st : FramerState) (i : Nat), FramerInv st i →
      (∀ pkt ∈ runFramer pktsize mask0 byte0 st i bytes,
          goodLength pktsize pkt ∧ framerLow st i ≤ pkt.1 ∧
          pkt.1 + pkt.2.length ≤ i + bytes.length) ∧
      List.Pairwise (fun p q : Nat × List Nat => p.1 + p.2.length ≤ q.1)
        (runFramer pktsize mask0 byte0 st i bytes) := by
  intro bytes
  induction bytes with
  | nil => intro st i _; simp [runFramer]
  | cons b rest ih =>
    intro st i hinv
    obtain ⟨st', out, hstep⟩ :
        ∃ st' out, interruptOccurred pktsize mask0 byte0 st i b = (st', out) :=
      ⟨_, _, rfl⟩
    obtain ⟨hinv', hnone, hsome⟩ :=
      interruptOccurred_spec pktsize mask0 byte0 st i b hinv st' out hstep
    obtain ⟨ihall, ihpw⟩ := ih st' (i + 1) hinv'
    cases out with
    | none =>
      have hrun : runFramer pktsize mask0 byte0 st i (b :: rest) =
          runFramer pktsize mask0 byte0 st' (i + 1) rest := by
        conv_lhs => unfold runFramer
        simp only [hstep]
      rw [hrun]
      have hle := hnone rfl
      refine ⟨fun pkt hpk => ?_, ihpw⟩
      obtain ⟨hg, hlow, hub⟩ := ihall pkt hpk
      exact ⟨hg, by omega, by simp; omega⟩
    | some pkt0 =>
      have hrun : runFramer pktsize mask0 byte0 st i (b :: rest) =
          pkt0 :: runFramer pktsize mask0 byte0 st' (i + 1) rest := by
        conv_lhs => unfold runFramer
        simp only [hstep]
      rw [hrun]
      obtain ⟨s, pb⟩ := pkt0
      obtain ⟨hg, hs, hend, hlow'⟩ := hsome s pb rfl
      constructor
      · intro pkt hpk
        rcases List.mem_cons.mp hpk with rfl | hpk
        · refine ⟨hg, le_of_eq hs.symm, ?_⟩
          simp only [List.length_cons]
          omega
        · obtain ⟨hg2, hlow2, hub2⟩ := ihall pkt hpk
          have := framerLow_le st i hinv
          refine ⟨hg2, by omega, by simp; omega⟩
      · refine List.Pairwise.cons ?_ ihpw
        intro q hq
        obtain ⟨_, hlow2, _⟩ := ihall q hq
        simp only
        omega


/-- C1: feeding bytes one at a time from the initial framer state, every
emitted packet has length equal to the active profile's packet size, except
that a packet whose first byte matches the legacy bare-packet signature
(`byte & 0xC8 == 0x08`) may complete at exactly 3 bytes; and the emitted
packets occupy pairwise disjoint ranges of the source byte stream. -/
theorem claim_C1 (pktsize mask0 byte0 : Nat) (bytes : List Nat) :
    (∀ pkt ∈ runFramer pktsize mask0 byte0 ⟨0, []⟩ 0 bytes,
        goodLength pktsize pkt) ∧
    List.Pairwise (fun p q : Nat × List Nat => p.1 + p.2.length ≤ q.1)
      (runFramer pktsize mask0 byte0 ⟨0, []⟩ 0 bytes) := by
  obtain ⟨hall, hpw⟩ :=
    runFramer_spec pktsize mask0 byte0 bytes ⟨0, []⟩ 0 (Or.inl rfl)
  exact ⟨fun pkt hpk => (hall pkt hpk).1, hpw⟩

/-- Witness for C1: a concrete 6-byte V3-style packet stream, with a legacy
3-byte packet interleaved before it, produces exactly the two disjoint
well-formed packets. -/
theorem claim_C1_witness :
    ((3, [0x8f, 0x01, 0x02, 0x03, 0x04, 0x05]) ∈
      runFramer 6 0x8f 0x8f ⟨0, []⟩ 0
        [0x08, 0x11, 0x22, 0x8f, 0x01, 0x02, 0x03, 0x04, 0x05]) ∧
    goodLength 6 (3, [0x8f, 0x01, 0x02, 0x03, 0x04, 0x05]) :=
  ⟨by decide,
   (claim_C1 6 0x8f 0x8f
      [0x08, 0x11, 0x22, 0x8f, 0x01, 0x02, 0x03, 0x04, 0x05]).1 _ (by decide)⟩

/-! ## Bitmap reconstruction (`alps_get_bitmap_points`, `processBitmap`,
lines 457-602)

Each axis bitmap is scanned low bit to high bit; each maximal run of set
bits is a contact run.  The first run is recorded in `low`, later runs in
`high`, and the total number of runs is counted. -/

/-- One contact run of an axis bitmap: `struct alps_bitmap_point`. -/
structure BPoint where
  start_bit : Nat
  num_bits : Nat
deriving DecidableEq

/-- Loop body of `alps_get_bitmap_points`: scans the remaining bitmap word
`map` starting at bit index `i`, with `prevBit` the value of the previous
bit and `onHigh` recording whether the write pointer has moved from `low`
to `high`. -/
def getPointsAux (map i : Nat) (prevBit onHigh : Bool) (low high : BPoint)
    (fingers : Nat) : BPoint × BPoint × Nat :=
  if hz : map = 0 then (low, high, fingers)
  else
    let bit := map % 2 == 1
    let cur := if onHigh then high else low
    let cur' := if bit && !prevBit then ⟨i, 1⟩
                else if bit then ⟨cur.start_bit, cur.num_bits + 1⟩
                else cur
    let fingers' := if bit && !prevBit then fingers + 1 else fingers
    let onHigh' := if !bit && prevBit then true else onHigh
    let low' := if onHigh then low else cur'
    let high' := if onHigh then cur' else high
    getPointsAux (map / 2) (i + 1) bit onHigh' low' high' fingers'
termination_by map
decreasing_by exact Nat.div_lt_self (Nat.pos_of_ne_zero hz) (by norm_num)

/-- `alps_get_bitmap_points` (lines 457-481): returns the `low` and `high`
contact runs of the bitmap word and the number of maximal runs of set bits. -/
def alps_get_bitmap_points (map : Nat) : BPoint × BPoint × Nat :=
  getPointsAux map 0 false false ⟨0, 0⟩ ⟨0, 0⟩ 0

/-- Number of maximal runs of set bits in a bitmap word, counted from the
least significant bit with `prev` the value of the preceding bit. -/
def countRunsAux (prev : Bool) (map : Nat) : Nat :=
  if hz : map = 0 then 0
  else (if map % 2 == 1 && !prev then 1 else 0) + countRunsAux (map % 2 == 1) (map / 2)
termination_by map
decreasing_by exact Nat.div_lt_self (Nat.pos_of_ne_zero hz) (by norm_num)

/-- Number of maximal runs of set bits in a bitmap word. -/
def countRuns (map : Nat) : Nat := countRunsAux false map

theorem getPointsAux_fingers (map : Nat) :
    ∀ (i : Nat) (prevBit onHigh : Bool) (low high : BPoint) (fingers : Nat),
      (getPointsAux map i prevBit onHigh low high fingers).2.2 =
        fingers + countRunsAux prevBit map := by
  induction map using Nat.strong_induction_on with
  | _ map ih =>
    intro i prevBit onHigh low high fingers
    by_cases hz : map = 0
    · subst hz
      rw [getPointsAux, countRunsAux]
      simp
    · rw [getPointsAux, countRunsAux]
      simp only [hz, dite_false, dif_neg]
      rw [ih (map / 2) (Nat.div_lt_self (Nat.pos_of_ne_zero hz) (by norm_num))]
      by_cases hb : (map % 2 == 1 && !prevBit) = true
      · simp [hb]
        omega
      · simp [hb]

/-- The run counter of `alps_get_bitmap_points` computes `countRuns`. -/
theorem alps_get_bitmap_points_fingers (map : Nat) :
    (alps_get_bitmap_points map).2.2 = countRuns map := by
  unfold alps_get_bitmap_points countRuns
  rw [getPointsAux_fingers]
  omega

theorem getPointsAux_shift (n : Nat) :
    ∀ (s i : Nat) (low high : BPoint) (fingers : Nat),
      getPointsAux ((2 ^ n - 1) * 2 ^ s) i false false low high fingers =
        getPointsAux (2 ^ n - 1) (i + s) false false low high fingers := by
  intro s
  induction s with
  | zero => intro i low high fingers; simp
  | succ s ih =>
    intro i low high fingers
    by_cases hn : n = 0
    · subst hn
      simp only [pow_zero, Nat.sub_self, Nat.zero_mul, zero_mul]
      conv_lhs => rw [getPointsAux]
      conv_rhs => rw [getPointsAux]
      simp
    · have hpos : 0 < 2 ^ n - 1 := by
        have : 2 ^ 1 ≤ 2 ^ n := Nat.pow_le_pow_right (by norm_num) (by omega)
        omega
      have hmz : (2 ^ n - 1) * 2 ^ (s + 1) ≠ 0 := by positivity
      have heven : ((2 ^ n - 1) * 2 ^ (s + 1)) % 2 = 0 := by
        rw [pow_succ, ← mul_assoc]
        exact Nat.mul_mod_left _ 2
      have hdiv : (2 ^ n - 1) * 2 ^ (s + 1) / 2 = (2 ^ n - 1) * 2 ^ s := by
        rw [pow_succ, ← mul_assoc]
        omega
      rw [getPointsAux, dif_neg hmz]
      simp only [heven, hdiv]
      rw [show i + (s + 1) = i + 1 + s from by omega]
      exact ih (i + 1) low high fingers

theorem getPointsAux_run (m : Nat) :
    ∀ (i s0 k : Nat) (high : BPoint) (fingers : Nat),
      getPointsAux (2 ^ m - 1) i true false ⟨s0, k⟩ high fingers =
        (⟨s0, k + m⟩, high, fingers) := by
  induction m with
  | zero =>
    intro i s0 k high fingers
    rw [getPointsAux]
    simp
  | succ m ih =>
    intro i s0 k high fingers
    have hmz : 2 ^ (m + 1) - 1 ≠ 0 := by
      have : 2 ^ 1 ≤ 2 ^ (m + 1) := Nat.pow_le_pow_right (by norm_num) (by omega)
      omega
    have hodd : (2 ^ (m + 1) - 1) % 2 = 1 := by
      have h2 : 2 ^ (m + 1) = 2 * 2 ^ m := by rw [pow_succ]; ring
      have hp : 0 < 2 ^ m := Nat.pos_pow_of_pos m (by norm_num)
      omega
    have hdiv : (2 ^ (m + 1) - 1) / 2 = 2 ^ m - 1 := by
      have h2 : 2 ^ (m + 1) = 2 * 2 ^ m := by rw [pow_succ]; ring
      have hp : 0 < 2 ^ m := Nat.pos_pow_of_pos m (by norm_num)
      omega
    rw [getPointsAux, dif_neg hmz]
    simp only [hodd, hdiv]
    have h3 := ih (i + 1) s0 (k + 1) high fingers
    rw [show k + 1 + m = k + (m + 1) from by omega] at h3
    exact h3

theorem getPointsAux_single (n : Nat) (hn : 1 ≤ n) :
    ∀ (i : Nat) (low high : BPoint) (fingers : Nat),
      getPointsAux (2 ^ n - 1) i false false low high fingers =
        (⟨i, n⟩, high, fingers + 1) := by
  obtain ⟨m, rfl⟩ : ∃ m, n = m + 1 := ⟨n - 1, by omega⟩
  intro i low high fingers
  have hmz : 2 ^ (m + 1) - 1 ≠ 0 := by
    have : 2 ^ 1 ≤ 2 ^ (m + 1) := Nat.pow_le_pow_right (by norm_num) (by omega)
    omega
  have hodd : (2 ^ (m + 1) - 1) % 2 = 1 := by
    have h2 : 2 ^ (m + 1) = 2 * 2 ^ m := by rw [pow_succ]; ring
    have hp : 0 < 2 ^ m := Nat.pos_pow_of_pos m (by norm_num)
    omega
  have hdiv : (2 ^ (m + 1) - 1) / 2 = 2 ^ m - 1 := by
    have h2 : 2 ^ (m + 1) = 2 * 2 ^ m := by rw [pow_succ]; ring
    have hp : 0 < 2 ^ m := Nat.pos_pow_of_pos m (by norm_num)
    omega
  rw [getPointsAux, dif_neg hmz]
  simp only [hodd, hdiv]
  have h3 := getPointsAux_run m (i + 1) i 1 high (fingers + 1)
  rw [show (1 : Nat) + m = m + 1 from by omega] at h3
  exact h3

/-- A bitmap consisting of exactly one maximal run of `n` set bits starting
at bit `s` is scanned into a single `low` run `(s, n)` with one finger
counted and `high` left untouched. -/
theorem alps_get_bitmap_points_single (s n : Nat) (hn : 1 ≤ n) :
    alps_get_bitmap_points ((2 ^ n - 1) * 2 ^ s) = (⟨s, n⟩, ⟨0, 0⟩, 1) := by
  unfold alps_get_bitmap_points
  rw [getPointsAux_shift n s 0 ⟨0, 0⟩ ⟨0, 0⟩ 0]
  rw [getPointsAux_single n hn (0 + s) ⟨0, 0⟩ ⟨0, 0⟩ 0]
  congr 2
  omega

/-- A single set bit forms one maximal run. -/
theorem countRuns_pow2 (k : Nat) : countRuns (2 ^ k) = 1 := by
  have h : (2 ^ 1 - 1) * 2 ^ k = 2 ^ k := by norm_num
  have h2 := alps_get_bitmap_points_fingers ((2 ^ 1 - 1) * 2 ^ k)
  rw [alps_get_bitmap_points_single k 1 (le_refl 1)] at h2
  rw [h] at h2
  exact h2.symm

/-! ## Driver model data and decoded fields -/

/-- Protocol versions `ALPS_PROTO_V1 .. ALPS_PROTO_V5`. -/
inductive Proto where
  | v1 | v2 | v3 | v4 | v5
deriving DecidableEq

/-- The fields of the driver's `modelData` (`struct alps_data`) used by the
modelled operations: identification results, bitmap geometry parameters and
the mutable multi-packet accumulation state. -/
structure AlpsData where
  proto_version : Proto
  byte0 : Nat
  mask0 : Nat
  flags : Nat
  x_max : Int
  y_max : Int
  x_bits : Int
  y_bits : Int
  pktsize : Nat
  second_touch : Int
  multi_packet : Nat
  multi_data : List Nat
  fingers : Nat
  quirks_trackstick_buttons : Bool
deriving DecidableEq

/-- Decoded packet fields (`struct alps_fields`).  The C struct is stack
allocated and only partially written by each decoder, so the decoders below
update a previous value of this record, mirroring the in-place writes. -/
structure AlpsFields where
  x : Int
  y : Int
  z : Int
  fingers : Nat
  x_map : Nat
  y_map : Nat
  first_mp : Bool
  is_mp : Bool
  left : Bool
  right : Bool
  middle : Bool
  ts_left : Bool
  ts_right : Bool
  ts_middle : Bool
  x1 : Int
  y1 : Int
  x2 : Int
  y2 : Int
deriving DecidableEq

/-- Decoded fields record with every member zero-initialised, standing for
the freshly declared local `struct alps_fields f` before any decoder write. -/
def AlpsFields.init : AlpsFields :=
  ⟨0, 0, 0, 0, 0, 0, false, false, false, false, false, false, false, false,
   0, 0, 0, 0⟩

/-- Byte access `packet[i]` on a packet modelled as a byte list. -/
def pb (p : List Nat) (i : Nat) : Nat := p.getD i 0

/-- `decodeButtonsV3` (lines 681-689). -/
def decodeButtonsV3 (f : AlpsFields) (p : List Nat) : AlpsFields :=
  { f with
    left := pb p 3 &&& 0x01 != 0
    right := pb p 3 &&& 0x02 != 0
    middle := pb p 3 &&& 0x04 != 0
    ts_left := pb p 3 &&& 0x10 != 0
    ts_right := pb p 3 &&& 0x20 != 0
    ts_middle := pb p 3 &&& 0x40 != 0 }

/-- `decodePinnacle` (lines 691-711). -/
def decodePinnacle (f : AlpsFields) (p : List Nat) : AlpsFields :=
  let f := { f with
    first_mp := pb p 4 &&& 0x40 != 0
    is_mp := pb p 0 &&& 0x40 != 0 }
  if f.is_mp then
    { f with
      fingers := (pb p 5 &&& 0x3) + 1
      x_map := ((pb p 4 &&& 0x7e) <<< 8) ||| ((pb p 1 &&& 0x7f) <<< 2) |||
        ((pb p 0 &&& 0x30) >>> 4)
      y_map := ((pb p 3 &&& 0x70) <<< 4) ||| ((pb p 2 &&& 0x7f) <<< 1) |||
        (pb p 4 &&& 0x01) }
  else
    decodeButtonsV3
      { f with
        x := (((pb p 1 &&& 0x7f) <<< 4) ||| ((pb p 4 &&& 0x30) >>> 2) |||
          ((pb p 0 &&& 0x30) >>> 4) : Nat)
        y := (((pb p 2 &&& 0x7f) <<< 4) ||| (pb p 4 &&& 0x0f) : Nat)
        z := (pb p 5 &&& 0x7f : Nat) } p

/-- `decodeRushmore` (lines 713-735). -/
def decodeRushmore (f : AlpsFields) (p : List Nat) : AlpsFields :=
  let f := { f with
    first_mp := pb p 4 &&& 0x40 != 0
    is_mp := pb p 5 &&& 0x40 != 0 }
  if f.is_mp then
    { f with
      fingers := max (pb p 5 &&& 0x3) ((pb p 5 >>> 2) &&& 0x3) + 1
      x_map := ((pb p 5 &&& 0x10) <<< 11) ||| ((pb p 4 &&& 0x7e) <<< 8) |||
        ((pb p 1 &&& 0x7f) <<< 2) ||| ((pb p 0 &&& 0x30) >>> 4)
      y_map := ((pb p 5 &&& 0x20) <<< 6) ||| ((pb p 3 &&& 0x70) <<< 4) |||
        ((pb p 2 &&& 0x7f) <<< 1) ||| (pb p 4 &&& 0x01) }
  else
    decodeButtonsV3
      { f with
        x := (((pb p 1 &&& 0x7f) <<< 4) ||| ((pb p 4 &&& 0x30) >>> 2) |||
          ((pb p 0 &&& 0x30) >>> 4) : Nat)
        y := (((pb p 2 &&& 0x7f) <<< 4) ||| (pb p 4 &&& 0x0f) : Nat)
        z := (pb p 5 &&& 0x7f : Nat) } p

/-- `decodeDolphin` (lines 737-757). -/
def decodeDolphin (f : AlpsFields) (p : List Nat) : AlpsFields :=
  decodeButtonsV3
    { f with
      first_mp := pb p 0 &&& 0x02 != 0
      is_mp := pb p 0 &&& 0x20 != 0
      fingers := ((pb p 0 &&& 0x6) >>> 1) ||| ((pb p 0 &&& 0x10) >>> 2)
      x_map := ((pb p 2 &&& 0x60) >>> 5) ||| ((pb p 4 &&& 0x7f) <<< 2) |||
        ((pb p 5 &&& 0x7f) <<< 9) ||| ((pb p 3 &&& 0x07) <<< 16) |||
        ((pb p 3 &&& 0x70) <<< 15) ||| ((pb p 0 &&& 0x01) <<< 22)
      y_map := (pb p 1 &&& 0x7f) ||| ((pb p 2 &&& 0x1f) <<< 7)
      x := ((pb p 1 &&& 0x7f) ||| ((pb p 4 &&& 0x0f) <<< 7) : Nat)
      y := ((pb p 2 &&& 0x7f) ||| ((pb p 4 &&& 0xf0) <<< 3) : Nat)
      z := if pb p 0 &&& 4 != 0 then 0 else (pb p 5 &&& 0x7f : Nat) } p

/-- Splitting of a single contact run between the `low` and `high` points
(`processBitmap` lines 523-535): with `i = num_bits / 2`, `low` keeps
`num_bits - i` bits and `high` is rewritten to start at `start_bit + i`
with `max i 1` bits. -/
def alps_split_single (lowPt : BPoint) : BPoint × BPoint :=
  let i := lowPt.num_bits / 2
  (⟨lowPt.start_bit, lowPt.num_bits - i⟩, ⟨lowPt.start_bit + i, max i 1⟩)

/-- Mapping of a run's midpoint bit position into device coordinate space
(`processBitmap` corner formulas), with C truncating integer division. -/
def cornerCoord (maxv bits : Int) (pt : BPoint) : Int :=
  (maxv * (2 * (pt.start_bit : Int) + (pt.num_bits : Int) - 1)).tdiv
    (2 * (bits - 1))

/-- Squared Euclidean distance from the single-touch coordinate `(x, y)` to
a corner, as computed in the `processBitmap` selection loop. -/
def cornerDist (x y : Int) (c : Int × Int) : Int :=
  (x - c.1) * (x - c.1) + (y - c.2) * (y - c.2)

/-- Corner-selection loop of `processBitmap` (lines 578-593): fold over the
corners keeping the first strictly-closest corner index; the accumulator is
`(i, second_touch, closest)` with `closest` seeded at `0x7fffffff`. -/
def selFold (x y : Int) (cs : List (Int × Int)) : Int × Int × Int :=
  cs.foldl
    (fun acc c =>
      if cornerDist x y c < acc.2.2 then (acc.1 + 1, acc.1, cornerDist x y c)
      else (acc.1 + 1, acc.2.1, acc.2.2))
    (0, -1, 0x7fffffff)

/-- The four bounding corners (top-left, top-right, bottom-right,
bottom-left) computed by `processBitmap` from the per-axis runs, including
the axis inversions for V5 (x) and V3/V4 (y). -/
def bitmapCorners (md : AlpsData) (f : AlpsFields) : List (Int × Int) :=
  let gx := alps_get_bitmap_points f.x_map
  let gy := alps_get_bitmap_points f.y_map
  let sx := if gx.2.2 = 1 then alps_split_single gx.1 else (gx.1, gx.2.1)
  let sy := if gy.2.2 = 1 then alps_split_single gy.1 else (gy.1, gy.2.1)
  let c0 := (cornerCoord md.x_max md.x_bits sx.1, cornerCoord md.y_max md.y_bits sy.1)
  let c1 := (cornerCoord md.x_max md.x_bits sx.2, cornerCoord md.y_max md.y_bits sy.1)
  let c2 := (cornerCoord md.x_max md.x_bits sx.2, cornerCoord md.y_max md.y_bits sy.2)
  let c3 := (cornerCoord md.x_max md.x_bits sx.1, cornerCoord md.y_max md.y_bits sy.2)
  let cs := [c0, c1, c2, c3]
  let cs := if md.proto_version = Proto.v5 then
      cs.map (fun c => (md.x_max - c.1, c.2)) else cs
  if md.proto_version = Proto.v3 ∨ md.proto_version = Proto.v4 then
    cs.map (fun c => (c.1, md.y_max - c.2)) else cs

/-- `processBitmap` (lines 493-602): returns the updated model data (the
stabilised second-touch corner), the fields with the two contact points
filled in, and the detected finger count. -/
def processBitmap (md : AlpsData) (f : AlpsFields) : AlpsData × AlpsFields × Nat :=
  if f.x_map = 0 ∨ f.y_map = 0 then (md, f, 0)
  else
    let gx := alps_get_bitmap_points f.x_map
    let gy := alps_get_bitmap_points f.y_map
    let fingers := max gx.2.2 gy.2.2
    let cs := bitmapCorners md f
    let md' :=
      if md.second_touch = -1 then
        { md with second_touch := ((selFold f.x f.y cs).2.1 + 2) % 4 }
      else md
    let f' := { f with
      x1 := f.x
      y1 := f.y
      x2 := (cs.getD md'.second_touch.toNat (0, 0)).1
      y2 := (cs.getD md'.second_touch.toNat (0, 0)).2 }
    (md', f', fingers)

/-- C4: `processBitmap` returns 0 when either axis bitmap is empty;
otherwise it returns the maximum of the numbers of maximal set-bit runs of
the two axis bitmaps; and with a single set bit on each axis the finger
count is at most 2. -/
theorem claim_C4 (md : AlpsData) (f : AlpsFields) :
    ((f.x_map = 0 ∨ f.y_map = 0) → (processBitmap md f).2.2 = 0) ∧
    (f.x_map ≠ 0 → f.y_map ≠ 0 →
      (processBitmap md f).2.2 = max (countRuns f.x_map) (countRuns f.y_map)) ∧
    (∀ i j : Nat, f.x_map = 2 ^ i → f.y_map = 2 ^ j →
      (processBitmap md f).2.2 ≤ 2) := by
  refine ⟨?_, ?_, ?_⟩
  · intro h
    unfold processBitmap
    rw [if_pos h]
  · intro hx hy
    unfold processBitmap
    rw [if_neg (by tauto)]
    show max (alps_get_bitmap_points f.x_map).2.2 (alps_get_bitmap_points f.y_map).2.2 = _
    rw [alps_get_bitmap_points_fingers, alps_get_bitmap_points_fingers]
  · intro i j hi hj
    have hx : f.x_map ≠ 0 := by rw [hi]; positivity
    have hy : f.y_map ≠ 0 := by rw [hj]; positivity
    unfold processBitmap
    rw [if_neg (by tauto)]
    show max (alps_get_bitmap_points f.x_map).2.2 (alps_get_bitmap_points f.y_map).2.2 ≤ 2
    rw [alps_get_bitmap_points_fingers, alps_get_bitmap_points_fingers, hi, hj,
      countRuns_pow2, countRuns_pow2]
    norm_num

/-- Witness for C4: two runs on x (bitmap 13 = 0b1101) and one on y give
finger count 2. -/
theorem claim_C4_witness :
    (13 : Nat) ≠ 0 ∧ (1 : Nat) ≠ 0 ∧
    (processBitmap ⟨Proto.v3, 0x8f, 0x8f, 0, 2000, 1400, 15, 11, 6, -1, 0, [], 0, false⟩
      { AlpsFields.init with x_map := 13, y_map := 1 }).2.2 =
      max (countRuns 13) (countRuns 1) :=
  ⟨by norm_num, by norm_num,
   (claim_C4 ⟨Proto.v3, 0x8f, 0x8f, 0, 2000, 1400, 15, 11, 6, -1, 0, [], 0, false⟩
      { AlpsFields.init with x_map := 13, y_map := 1 }).2.1
     (by norm_num) (by norm_num)⟩

/-- C3 (amended): an axis bitmap with exactly one maximal run of `n ≥ 1`
set bits starting at bit `s` is scanned into the single run `(s, n)`, and
the split then leaves `n - n/2` bits (the rounded-up half) on the low
point and rewrites the high point to start at `s + n/2` (the midpoint,
inside the low point's bits when `n` is odd) with `max (n/2) 1` bits. -/
theorem claim_C3 (s n : Nat) (hn : 1 ≤ n) :
    (alps_get_bitmap_points ((2 ^ n - 1) * 2 ^ s)).1 = ⟨s, n⟩ ∧
    (alps_split_single (alps_get_bitmap_points ((2 ^ n - 1) * 2 ^ s)).1).1 =
      ⟨s, n - n / 2⟩ ∧
    (alps_split_single (alps_get_bitmap_points ((2 ^ n - 1) * 2 ^ s)).1).2 =
      ⟨s + n / 2, max (n / 2) 1⟩ := by
  rw [alps_get_bitmap_points_single s n hn]
  exact ⟨rfl, rfl, rfl⟩

/-- Counterexample for C3 as stated: on the single run of 3 bits of bitmap
7, the low point keeps 2 bits, not `floor(3/2) = 1` as claimed, and the
high point starts at bit 1, strictly inside the low point's bits rather
than immediately after them. -/
theorem claim_C3_counterexample :
    (alps_split_single (alps_get_bitmap_points 7).1).1.num_bits = 2 ∧
    ¬((alps_split_single (alps_get_bitmap_points 7).1).1.num_bits = 3 / 2) ∧
    (alps_split_single (alps_get_bitmap_points 7).1).2.start_bit <
      (alps_split_single (alps_get_bitmap_points 7).1).1.start_bit +
      (alps_split_single (alps_get_bitmap_points 7).1).1.num_bits := by
  simp [alps_get_bitmap_points, getPointsAux, alps_split_single]

/-- Witness for C3 (amended): the run of 3 bits starting at bit 1 (bitmap
14) splits into low `(1, 2)` and high `(2, 1)`. -/
theorem claim_C3_witness :
    1 ≤ 3 ∧ (alps_split_single (alps_get_bitmap_points ((2 ^ 3 - 1) * 2 ^ 1)).1).1 =
      ⟨1, 3 - 3 / 2⟩ :=
  ⟨by norm_num, (claim_C3 1 3 (by norm_num)).2.1⟩

/-- Arguments of a `dispatchEventsWithInfo` call made by packet processing:
the absolute sample handed to the gesture state machine. -/
structure DispatchArgs where
  x : Int
  y : Int
  z : Int
  fingers : Nat
  buttons : Nat
deriving DecidableEq

/-- Multi-packet completion step of `processTouchpadPacketV3` (lines
775-806): when a multi-packet sequence is in progress and the current
packet is a bitmap packet, re-decode the buffered position packet and run
the bitmap reconstruction.  Returns the updated model data, the fields
struct and the multi-touch finger count. -/
def v3MultiStep (decode : AlpsFields -> List Nat -> AlpsFields)
    (md : AlpsData) (f : AlpsFields) : AlpsData × AlpsFields × Nat :=
  if md.multi_packet ≠ 0 then
    if f.is_mp then
      let fingers := f.fingers
      let f := decode f md.multi_data
      let r := processBitmap md f
      let f := if fingers = 1 then { r.2.1 with z := 0 } else r.2.1
      (r.1, f, fingers)
    else ({ md with multi_packet := 0 }, f, 0)
  else (md, f, 0)

/-- Dispatch tail of `processTouchpadPacketV3` (lines 827-865): fall back
to single-touch data when fewer than 2 multi-touch fingers are known,
assemble the button mask and dispatch the absolute sample. -/
def v3DispatchTail (md1 : AlpsData) (f1 : AlpsFields) (fingers1 : Nat) :
    AlpsData × Option DispatchArgs :=
  let md2 := { md1 with multi_packet := 0 }
  let step2 : AlpsData × AlpsFields × Nat :=
    if fingers1 < 2 then
      ({ md2 with second_touch := -1 }, { f1 with x1 := f1.x, y1 := f1.y },
        if 0 < f1.z then 1 else 0)
    else (md2, f1, fingers1)
  let md3 := step2.1
  let f2 := step2.2.1
  let fingers2 := step2.2.2
  let buttons : Nat :=
    (if f2.left then 1 else 0) ||| (if f2.right then 2 else 0) |||
      (if f2.middle then 4 else 0)
  let buttons := if ¬md3.quirks_trackstick_buttons then
      buttons ||| (if f2.ts_left then 1 else 0) |||
        (if f2.ts_right then 2 else 0) ||| (if f2.ts_middle then 4 else 0)
    else buttons
  (md3, some ⟨f2.x1 * 3, f2.y1 * 3, f2.z, fingers2, buttons⟩)

/-- `processTouchpadPacketV3` (lines 759-866), parameterised by the active
`decode_fields` decoder.  Returns the updated model data and the absolute
sample passed to `dispatchEventsWithInfo`, or `none` when the packet is
rejected or buffered. -/
def processTouchpadPacketV3 (decode : AlpsFields -> List Nat -> AlpsFields)
    (md : AlpsData) (p : List Nat) : AlpsData × Option DispatchArgs :=
  let f := decode AlpsFields.init p
  if md.multi_packet > 2 then (md, none)
  else
    let s := v3MultiStep decode md f
    if s.2.1.is_mp then (s.1, none)
    else if s.1.multi_packet = 0 ∧ s.2.1.first_mp then
      ({ s.1 with multi_packet := 1, multi_data := (List.range 6).map (pb p) }, none)
    else v3DispatchTail s.1 s.2.1 s.2.2

theorem v3DispatchTail_clear (md1 : AlpsData) (f1 : AlpsFields)
    (fingers1 : Nat) (ev : DispatchArgs)
    (hsome : (v3DispatchTail md1 f1 fingers1).2 = some ev)
    (hf : ev.fingers < 2) :
    (v3DispatchTail md1 f1 fingers1).1.second_touch = -1 := by
  unfold v3DispatchTail at hsome ⊢
  by_cases hlt : fingers1 < 2
  · simp only [if_pos hlt]
  · simp only [if_neg hlt] at hsome ⊢
    simp only [Option.some.injEq] at hsome
    subst hsome
    simp at hf
    omega

/-- C9: a V3 touchpad packet whose is-multi-touch bit is set while no
multi-packet sequence is in progress is rejected: processing returns with
the model data unchanged and dispatches no event. -/
theorem claim_C9 (decode : AlpsFields → List Nat → AlpsFields)
    (md : AlpsData) (p : List Nat) (hmp : md.multi_packet = 0)
    (hmb : (decode AlpsFields.init p).is_mp = true) :
    processTouchpadPacketV3 decode md p = (md, none) := by
  unfold processTouchpadPacketV3
  rw [if_neg (by omega)]
  have hs : v3MultiStep decode md (decode AlpsFields.init p) =
      (md, decode AlpsFields.init p, 0) := by
    unfold v3MultiStep
    rw [if_neg (by omega)]
  simp only [hs]
  rw [if_pos hmb]

/-- Witness for C9: a Pinnacle bitmap-style packet (bit 6 of byte 0 set)
arriving with no multi-packet sequence in progress is dropped. -/
theorem claim_C9_witness :
    (⟨Proto.v3, 0x8f, 0x8f, 0, 2000, 1400, 15, 11, 6, -1, 0, [], 0, false⟩ :
      AlpsData).multi_packet = 0 ∧
    (decodePinnacle AlpsFields.init [0x40, 0, 0, 0, 0, 0]).is_mp = true ∧
    processTouchpadPacketV3 decodePinnacle
      ⟨Proto.v3, 0x8f, 0x8f, 0, 2000, 1400, 15, 11, 6, -1, 0, [], 0, false⟩
      [0x40, 0, 0, 0, 0, 0] =
      (⟨Proto.v3, 0x8f, 0x8f, 0, 2000, 1400, 15, 11, 6, -1, 0, [], 0, false⟩, none) :=
  ⟨rfl, by decide,
   claim_C9 decodePinnacle
     ⟨Proto.v3, 0x8f, 0x8f, 0, 2000, 1400, 15, 11, 6, -1, 0, [], 0, false⟩
     [0x40, 0, 0, 0, 0, 0] rfl (by decide)⟩

theorem selFold_argmin (x y : Int) (c0 c1 c2 c3 : Int × Int)
    (h0 : cornerDist x y c0 < 2147483647) (h1 : cornerDist x y c1 < 2147483647)
    (h2 : cornerDist x y c2 < 2147483647) (h3 : cornerDist x y c3 < 2147483647) :
    ((selFold x y [c0, c1, c2, c3]).2.1 = 0 ∧ cornerDist x y c0 ≤ cornerDist x y c1 ∧
      cornerDist x y c0 ≤ cornerDist x y c2 ∧ cornerDist x y c0 ≤ cornerDist x y c3) ∨
    ((selFold x y [c0, c1, c2, c3]).2.1 = 1 ∧ cornerDist x y c1 ≤ cornerDist x y c0 ∧
      cornerDist x y c1 ≤ cornerDist x y c2 ∧ cornerDist x y c1 ≤ cornerDist x y c3) ∨
    ((selFold x y [c0, c1, c2, c3]).2.1 = 2 ∧ cornerDist x y c2 ≤ cornerDist x y c0 ∧
      cornerDist x y c2 ≤ cornerDist x y c1 ∧ cornerDist x y c2 ≤ cornerDist x y c3) ∨
    ((selFold x y [c0, c1, c2, c3]).2.1 = 3 ∧ cornerDist x y c3 ≤ cornerDist x y c0 ∧
      cornerDist x y c3 ≤ cornerDist x y c1 ∧ cornerDist x y c3 ≤ cornerDist x y c2) := by
  simp only [selFold, List.foldl]
  split_ifs <;> simp_all <;> omega

theorem bitmapCorners_four (md : AlpsData) (f : AlpsFields) :
    ∃ a b c d, bitmapCorners md f = [a, b, c, d] := by
  unfold bitmapCorners
  split_ifs <;> exact ⟨_, _, _, _, rfl⟩

theorem processBitmap_keep (md : AlpsData) (f : AlpsFields)
    (h : md.second_touch ≠ -1) :
    (processBitmap md f).1.second_touch = md.second_touch := by
  unfold processBitmap
  split_ifs with hc
  · rfl
  · simp only [if_neg h]

theorem processBitmap_select (md : AlpsData) (f : AlpsFields)
    (hst : md.second_touch = -1) (hx : f.x_map ≠ 0) (hy : f.y_map ≠ 0) :
    (processBitmap md f).1.second_touch =
      ((selFold f.x f.y (bitmapCorners md f)).2.1 + 2) % 4 := by
  unfold processBitmap
  rw [if_neg (by tauto)]
  simp only [hst, if_pos]

/-- C2: the second-touch corner is selected only when unselected
(`second_touch = -1`): on such a frame with both bitmaps non-empty the
corner diagonally opposite a nearest corner (by squared Euclidean distance
to the single-touch coordinate) is stored; on any frame where a selection
already exists it is left unchanged; and V3 packet processing resets the
selection to -1 whenever it dispatches a sample with fewer than 2 fingers. -/
theorem claim_C2 (md : AlpsData) (f : AlpsFields) :
    (md.second_touch ≠ -1 →
      (processBitmap md f).1.second_touch = md.second_touch) ∧
    (md.second_touch = -1 → f.x_map ≠ 0 → f.y_map ≠ 0 →
      (∀ c ∈ bitmapCorners md f, cornerDist f.x f.y c < 2147483647) →
      ∃ j : Nat, j < 4 ∧
        (∀ c ∈ bitmapCorners md f,
          cornerDist f.x f.y ((bitmapCorners md f).getD j (0, 0)) ≤
            cornerDist f.x f.y c) ∧
        (processBitmap md f).1.second_touch = ((j : Int) + 2) % 4) ∧
    (∀ (decode : AlpsFields → List Nat → AlpsFields) (p : List Nat)
        (ev : DispatchArgs),
      (processTouchpadPacketV3 decode md p).2 = some ev → ev.fingers < 2 →
      (processTouchpadPacketV3 decode md p).1.second_touch = -1) := by
  refine ⟨processBitmap_keep md f, ?_, ?_⟩
  · intro hst hx hy hb
    obtain ⟨a, b, c, d, hc⟩ := bitmapCorners_four md f
    rw [hc] at hb
    have ha0 := hb a (by simp)
    have ha1 := hb b (by simp)
    have ha2 := hb c (by simp)
    have ha3 := hb d (by simp)
    have hsel := processBitmap_select md f hst hx hy
    rw [hc] at hsel
    rcases selFold_argmin f.x f.y a b c d ha0 ha1 ha2 ha3 with
      ⟨hj, p1, p2, p3⟩ | ⟨hj, p1, p2, p3⟩ | ⟨hj, p1, p2, p3⟩ | ⟨hj, p1, p2, p3⟩
    · refine ⟨0, by norm_num, ?_, ?_⟩
      · rw [hc]
        intro e he
        simp only [List.getD] at *
        rcases List.mem_cons.mp he with rfl | he
        · simp
        rcases List.mem_cons.mp he with rfl | he
        · simpa using p1
        rcases List.mem_cons.mp he with rfl | he
        · simpa using p2
        rcases List.mem_cons.mp he with rfl | he
        · simpa using p3
        · simp at he
      · rw [hsel, hj]
        norm_num
    · refine ⟨1, by norm_num, ?_, ?_⟩
      · rw [hc]
        intro e he
        rcases List.mem_cons.mp he with rfl | he
        · simpa using p1
        rcases List.mem_cons.mp he with rfl | he
        · simp
        rcases List.mem_cons.mp he with rfl | he
        · simpa using p2
        rcases List.mem_cons.mp he with rfl | he
        · simpa using p3
        · simp at he
      · rw [hsel, hj]
        norm_num
    · refine ⟨2, by norm_num, ?_, ?_⟩
      · rw [hc]
        intro e he
        rcases List.mem_cons.mp he with rfl | he
        · simpa using p1
        rcases List.mem_cons.mp he with rfl | he
        · simpa using p2
        rcases List.mem_cons.mp he with rfl | he
        · simp
        rcases List.mem_cons.mp he with rfl | he
        · simpa using p3
        · simp at he
      · rw [hsel, hj]
        norm_num
    · refine ⟨3, by norm_num, ?_, ?_⟩
      · rw [hc]
        intro e he
        rcases List.mem_cons.mp he with rfl | he
        · simpa using p1
        rcases List.mem_cons.mp he with rfl | he
        · simpa using p2
        rcases List.mem_cons.mp he with rfl | he
        · simpa using p3
        rcases List.mem_cons.mp he with rfl | he
        · simp
        · simp at he
      · rw [hsel, hj]
        norm_num
  · intro decode p ev hsome hf
    unfold processTouchpadPacketV3 at hsome ⊢
    dsimp only at hsome ⊢
    split_ifs at hsome ⊢ <;>
      first
        | exact v3DispatchTail_clear _ _ _ ev hsome hf
        | cases hsome

/-- Concrete V3 model data used to exercise the bitmap reconstructor: the
Pinnacle defaults with no corner selected yet. -/
def mdV3fresh : AlpsData :=
  ⟨Proto.v3, 0x8f, 0x8f, 0, 2000, 1400, 15, 11, 6, -1, 0, [], 0, false⟩

/-- Concrete decoded fields with one two-bit run on each axis bitmap and
the single touch at (100, 100). -/
def fBitmapPair : AlpsFields :=
  { AlpsFields.init with x_map := 3, y_map := 3, x := 100, y := 100 }

theorem bitmapCorners_pair_eval :
    bitmapCorners mdV3fresh fBitmapPair =
      [(0, 1400), (142, 1400), (142, 1260), (0, 1260)] := by
  simp [bitmapCorners, mdV3fresh, fBitmapPair, AlpsFields.init,
    alps_get_bitmap_points, getPointsAux, alps_split_single, cornerCoord]
  decide

/-- Witness for C2: on a first ≥2-finger frame with no corner selected the
reconstructor picks the diagonal opposite of a nearest corner. -/
theorem claim_C2_witness :
    ∃ j : Nat, j < 4 ∧
      (∀ c ∈ bitmapCorners mdV3fresh fBitmapPair,
        cornerDist fBitmapPair.x fBitmapPair.y
            ((bitmapCorners mdV3fresh fBitmapPair).getD j (0, 0)) ≤
          cornerDist fBitmapPair.x fBitmapPair.y c) ∧
      (processBitmap mdV3fresh fBitmapPair).1.second_touch = ((j : Int) + 2) % 4 :=
  (claim_C2 mdV3fresh fBitmapPair).2.1 rfl (by decide) (by decide)
    (by
      rw [bitmapCorners_pair_eval]
      intro c hc
      fin_cases hc <;> decide)

/-! ## V4 packet processing (`processPacketV4`, lines 885-963)

The 6-byte bitmap payload arrives two bytes per packet (bytes 6 and 7)
across three packets.  After the third fragment the source assembles the
two bitmap words into local variables, but the reconstruction call is
commented out and the finger count stored into the model data is the local
`fingers`, still 0; the locals holding the words are discarded. -/

/-- Word assembled from the accumulated V4 bitmap payload for the x axis
(lines 916-919). -/
def v4_x_bitmap (d : List Nat) : Nat :=
  ((pb d 2 &&& 0x1f) <<< 10) ||| ((pb d 3 &&& 0x60) <<< 3) |||
    ((pb d 0 &&& 0x3f) <<< 2) ||| ((pb d 1 &&& 0x60) >>> 5)

/-- Word assembled from the accumulated V4 bitmap payload for the y axis
(lines 920-922). -/
def v4_y_bitmap (d : List Nat) : Nat :=
  ((pb d 5 &&& 0x01) <<< 10) ||| ((pb d 3 &&& 0x1f) <<< 5) ||| (pb d 1 &&& 0x1f)

/-- `processPacketV4` (lines 885-963). -/
def processPacketV4 (md : AlpsData) (p : List Nat) :
    AlpsData × Option DispatchArgs :=
  let md := if pb p 6 &&& 0x40 ≠ 0 then { md with multi_packet := 0 } else md
  if md.multi_packet > 2 then (md, none)
  else
    let offset := 2 * md.multi_packet
    let md := { md with
      multi_data := (md.multi_data.set offset (pb p 6)).set (offset + 1) (pb p 7) }
    let md :=
      if md.multi_packet + 1 > 2 then { md with multi_packet := 0, fingers := 0 }
      else { md with multi_packet := md.multi_packet + 1 }
    let left := pb p 4 &&& 0x01
    let right := pb p 4 &&& 0x02
    let x : Int := (((pb p 1 &&& 0x7f) <<< 4) ||| ((pb p 3 &&& 0x30) >>> 2) |||
      ((pb p 0 &&& 0x30) >>> 4) : Nat)
    let y : Int := (((pb p 2 &&& 0x7f) <<< 4) ||| (pb p 3 &&& 0x0f) : Nat)
    let z : Int := (pb p 5 &&& 0x7f : Nat)
    let fingers := if md.fingers < 2 then (if 0 < z then 1 else 0) else md.fingers
    let buttons : Nat := (if left ≠ 0 then 1 else 0) ||| (if right ≠ 0 then 2 else 0)
    (md, some ⟨x, y, z, fingers, buttons⟩)

/-- C5 (amended): the V4 bitmap payload is accumulated 2 bytes per packet
(packet bytes 6 and 7) across 3 consecutive packets at offset
`2 * multi_packet`, resetting to 0 whenever bit 0x40 of byte 6 is set;
after the third fragment all six payload bytes are stored in order and the
accumulator resets — but the stored multi-touch finger count is 0 (the
reconstruction of the assembled words is absent), so the dispatched finger
count comes from the single-touch pressure, never exceeding 1. -/
theorem claim_C5 (md : AlpsData) (p1 p2 p3 : List Nat)
    (hlen : md.multi_data.length = 6)
    (hs1 : pb p1 6 &&& 0x40 ≠ 0)
    (hs2 : pb p2 6 &&& 0x40 = 0) (hs3 : pb p3 6 &&& 0x40 = 0) :
    (processPacketV4 md p1).1.multi_packet = 1 ∧
    (processPacketV4 (processPacketV4 md p1).1 p2).1.multi_packet = 2 ∧
    (processPacketV4 (processPacketV4 (processPacketV4 md p1).1 p2).1 p3).1.multi_packet = 0 ∧
    (processPacketV4 (processPacketV4 (processPacketV4 md p1).1 p2).1 p3).1.multi_data =
      [pb p1 6, pb p1 7, pb p2 6, pb p2 7, pb p3 6, pb p3 7] ∧
    (processPacketV4 (processPacketV4 (processPacketV4 md p1).1 p2).1 p3).1.fingers = 0 ∧
    (∀ ev : DispatchArgs,
      (processPacketV4 (processPacketV4 (processPacketV4 md p1).1 p2).1 p3).2 = some ev →
      ev.fingers ≤ 1) := by
  obtain ⟨d0, d1, d2, d3, d4, d5, hd⟩ :
      ∃ d0 d1 d2 d3 d4 d5, md.multi_data = [d0, d1, d2, d3, d4, d5] := by
    rcases hmd : md.multi_data with _ | ⟨a0, _ | ⟨a1, _ | ⟨a2, _ | ⟨a3, _ | ⟨a4, _ | ⟨a5, _ | ⟨a6, l⟩⟩⟩⟩⟩⟩⟩ <;>
      simp [hmd] at hlen <;> exact ⟨a0, a1, a2, a3, a4, a5, rfl⟩
  have h1 : (processPacketV4 md p1).1 =
      { md with
        multi_packet := 1
        multi_data := [pb p1 6, pb p1 7, d2, d3, d4, d5] } := by
    simp [processPacketV4, hs1, hd, List.set]
  have h2 : (processPacketV4 (processPacketV4 md p1).1 p2).1 =
      { md with
        multi_packet := 2
        multi_data := [pb p1 6, pb p1 7, pb p2 6, pb p2 7, d4, d5] } := by
    rw [h1]
    simp [processPacketV4, hs2, List.set]
  have h3 : (processPacketV4 (processPacketV4 (processPacketV4 md p1).1 p2).1 p3).1 =
      { md with
        multi_packet := 0
        fingers := 0
        multi_data := [pb p1 6, pb p1 7, pb p2 6, pb p2 7, pb p3 6, pb p3 7] } := by
    rw [h2]
    simp [processPacketV4, hs3, List.set]
  refine ⟨by rw [h1], by rw [h2], by rw [h3], by rw [h3], by rw [h3], ?_⟩
  intro ev hev
  have hz : (processPacketV4 (processPacketV4 (processPacketV4 md p1).1 p2).1 p3).2 =
      some ⟨(((pb p3 1 &&& 0x7f) <<< 4) ||| ((pb p3 3 &&& 0x30) >>> 2) |||
          ((pb p3 0 &&& 0x30) >>> 4) : Nat),
        (((pb p3 2 &&& 0x7f) <<< 4) ||| (pb p3 3 &&& 0x0f) : Nat),
        ((pb p3 5 &&& 0x7f : Nat) : Int),
        if 0 < ((pb p3 5 &&& 0x7f : Nat) : Int) then 1 else 0,
        (if pb p3 4 &&& 0x01 ≠ 0 then 1 else 0) ||| (if pb p3 4 &&& 0x02 ≠ 0 then 2 else 0)⟩ := by
    rw [h2]
    simp [processPacketV4, hs3, List.set]
  rw [hz] at hev
  simp only [Option.some.injEq] at hev
  subst hev
  simp only
  split_ifs <;> norm_num

/-- Concrete V4 model data at session start (defaults of `setDefaults` with
V4 packet size, empty accumulator). -/
def mdV4fresh : AlpsData :=
  ⟨Proto.v4, 0x8f, 0x8f, 0, 2000, 1400, 15, 11, 8, -1, 0, [0, 0, 0, 0, 0, 0], 0, false⟩

/-- Counterexample for C5 as stated: feeding the three fragments
`{..,0x41,0x20}`, `{..,0x00,0x05}`, `{..,0x00,0x00}` assembles bitmap words
5 and 160, whose reconstruction would report 2 fingers, yet the packet
dispatched after the third fragment reports 1 finger (pressure-based) and
the stored multi-touch finger count is 0: the assembled words never feed
the reported finger count. -/
theorem claim_C5_counterexample :
    (processPacketV4 (processPacketV4 (processPacketV4 mdV4fresh
        [0, 0, 0, 0, 0, 0, 0x41, 0x20]).1
        [0, 0, 0, 0, 0, 0, 0, 0x05]).1
        [0, 0, 0, 0, 0, 10, 0, 0]).1.fingers = 0 ∧
    (processPacketV4 (processPacketV4 (processPacketV4 mdV4fresh
        [0, 0, 0, 0, 0, 0, 0x41, 0x20]).1
        [0, 0, 0, 0, 0, 0, 0, 0x05]).1
        [0, 0, 0, 0, 0, 10, 0, 0]).2 = some ⟨0, 0, 10, 1, 0⟩ ∧
    v4_x_bitmap (processPacketV4 (processPacketV4 (processPacketV4 mdV4fresh
        [0, 0, 0, 0, 0, 0, 0x41, 0x20]).1
        [0, 0, 0, 0, 0, 0, 0, 0x05]).1
        [0, 0, 0, 0, 0, 10, 0, 0]).1.multi_data = 5 ∧
    v4_y_bitmap (processPacketV4 (processPacketV4 (processPacketV4 mdV4fresh
        [0, 0, 0, 0, 0, 0, 0x41, 0x20]).1
        [0, 0, 0, 0, 0, 0, 0, 0x05]).1
        [0, 0, 0, 0, 0, 10, 0, 0]).1.multi_data = 160 ∧
    (processBitmap mdV4fresh
        { AlpsFields.init with x_map := 5, y_map := 160 }).2.2 = 2 ∧
    (1 : Nat) ≠ 2 := by
  refine ⟨by decide, by decide, by decide, by decide, ?_, by decide⟩
  simp [processBitmap, bitmapCorners, alps_get_bitmap_points, getPointsAux,
    alps_split_single, cornerCoord, selFold, cornerDist, AlpsFields.init, mdV4fresh]

/-- Witness for C5 (amended): the same three concrete fragments satisfy the
sync-bit hypotheses and accumulate in order. -/
theorem claim_C5_witness :
    mdV4fresh.multi_data.length = 6 ∧
    (processPacketV4 (processPacketV4 (processPacketV4 mdV4fresh
        [0, 0, 0, 0, 0, 0, 0x41, 0x20]).1
        [0, 0, 0, 0, 0, 0, 0, 0x05]).1
        [0, 0, 0, 0, 0, 10, 0, 0]).1.multi_data =
      [0x41, 0x20, 0, 0x05, 0, 0] :=
  ⟨rfl,
   ((claim_C5 mdV4fresh [0, 0, 0, 0, 0, 0, 0x41, 0x20]
      [0, 0, 0, 0, 0, 0, 0, 0x05] [0, 0, 0, 0, 0, 10, 0, 0]
      rfl (by decide) (by decide) (by decide)).2.2.2.1).trans (by decide)⟩

/-! ## Identification (`alps_model_data`, `setDefaults`, `matchTable`,
`identify`, `deviceSpecificInit`) -/

/-- One row of the static model table `alps_model_data` (lines 93-125). -/
structure AlpsModelInfo where
  sig0 : Nat
  sig1 : Nat
  sig2 : Nat
  command_mode_resp : Nat
  proto_version : Proto
  byte0 : Nat
  mask0 : Nat
  flags : Nat
deriving DecidableEq

/-- The static model table `alps_model_data` (lines 93-125).  Capability
flags: `ALPS_DUALPOINT = 0x02`, `ALPS_PASS = 0x04`, `ALPS_WHEEL = 0x08`,
`ALPS_FW_BK_1 = 0x10`, `ALPS_FW_BK_2 = 0x20`, `ALPS_FOUR_BUTTONS = 0x40`,
`ALPS_PS2_INTERLEAVED = 0x80`. -/
def alps_model_data : List AlpsModelInfo :=
  [⟨0x32, 0x02, 0x14, 0x00, Proto.v2, 0xf8, 0xf8, 0x04 ||| 0x02⟩,
   ⟨0x33, 0x02, 0x0a, 0x00, Proto.v1, 0x88, 0xf8, 0⟩,
   ⟨0x53, 0x02, 0x0a, 0x00, Proto.v2, 0xf8, 0xf8, 0⟩,
   ⟨0x53, 0x02, 0x14, 0x00, Proto.v2, 0xf8, 0xf8, 0⟩,
   ⟨0x60, 0x03, 0xc8, 0x00, Proto.v2, 0xf8, 0xf8, 0⟩,
   ⟨0x63, 0x02, 0x0a, 0x00, Proto.v2, 0xf8, 0xf8, 0⟩,
   ⟨0x63, 0x02, 0x14, 0x00, Proto.v2, 0xf8, 0xf8, 0⟩,
   ⟨0x63, 0x02, 0x28, 0x00, Proto.v2, 0xf8, 0xf8, 0x20⟩,
   ⟨0x63, 0x02, 0x3c, 0x00, Proto.v2, 0x8f, 0x8f, 0x08⟩,
   ⟨0x63, 0x02, 0x50, 0x00, Proto.v2, 0xef, 0xef, 0x10⟩,
   ⟨0x63, 0x02, 0x64, 0x00, Proto.v2, 0xf8, 0xf8, 0⟩,
   ⟨0x63, 0x03, 0xc8, 0x00, Proto.v2, 0xf8, 0xf8, 0x04 ||| 0x02⟩,
   ⟨0x73, 0x00, 0x0a, 0x00, Proto.v2, 0xf8, 0xf8, 0x02⟩,
   ⟨0x73, 0x02, 0x0a, 0x00, Proto.v2, 0xf8, 0xf8, 0⟩,
   ⟨0x73, 0x02, 0x14, 0x00, Proto.v2, 0xf8, 0xf8, 0x20⟩,
   ⟨0x20, 0x02, 0x0e, 0x00, Proto.v2, 0xf8, 0xf8, 0x04 ||| 0x02⟩,
   ⟨0x22, 0x02, 0x0a, 0x00, Proto.v2, 0xf8, 0xf8, 0x04 ||| 0x02⟩,
   ⟨0x22, 0x02, 0x14, 0x00, Proto.v2, 0xff, 0xff, 0x04 ||| 0x02⟩,
   ⟨0x62, 0x02, 0x14, 0x00, Proto.v2, 0xcf, 0xcf, 0x04 ||| 0x02 ||| 0x80⟩,
   ⟨0x73, 0x02, 0x50, 0x00, Proto.v2, 0xcf, 0xcf, 0x40⟩,
   ⟨0x52, 0x01, 0x14, 0x00, Proto.v2, 0xff, 0xff, 0x04 ||| 0x02 ||| 0x80⟩,
   ⟨0x73, 0x02, 0x64, 0x8a, Proto.v4, 0x8f, 0x8f, 0⟩]

/-- `setDefaults` (lines 2440-2495), restricted to the modelled fields (the
function-pointer and nibble-table assignments select code already embedded
per protocol version). -/
def setDefaults (md : AlpsData) : AlpsData :=
  let md := { md with
    byte0 := 0x8f
    mask0 := 0x8f
    flags := 0x02
    x_max := 2000
    y_max := 1400
    x_bits := 15
    y_bits := 11 }
  match md.proto_version with
  | Proto.v1 | Proto.v2 => { md with x_max := 1100, y_max := 800 }
  | Proto.v3 => md
  | Proto.v4 => md
  | Proto.v5 => { md with
      byte0 := 0xc8
      mask0 := 0xc8
      flags := 0
      x_max := 1360
      y_max := 660
      x_bits := 23
      y_bits := 12 }

/-- `matchTable` (lines 2497-2520): first table row whose signature equals
the E7 report and whose command-mode response byte is 0 or equals byte 2 of
the EC report. -/
def matchTable (md : AlpsData) (e7 ec : Nat × Nat × Nat) : Option AlpsData :=
  match alps_model_data.find? (fun m =>
      (m.sig0 == e7.1 && m.sig1 == e7.2.1 && m.sig2 == e7.2.2) &&
      (m.command_mode_resp == 0 || m.command_mode_resp == ec.2.2)) with
  | none => none
  | some m =>
    let md := setDefaults { md with proto_version := m.proto_version }
    some { md with flags := m.flags, byte0 := m.byte0, mask0 := m.mask0 }

/-- Outcome of `identify`: a configured device or the invalid-device
failure `kIOReturnInvalid`. -/
inductive IdentResult where
  | ok (md : AlpsData)
  | invalid
deriving DecidableEq

/-- Decision logic of `identify` (lines 2522-2589) over the three
retrieved reports; the transport exchanges that fetch the reports are
outside this model, and `tsProbe` stands for the result of
`probeTrackstickV3` in the Rushmore branch. -/
def identify (md : AlpsData) (e6 e7 ec : Nat × Nat × Nat) (tsProbe : Bool) :
    IdentResult :=
  if e6.1 &&& 0xf8 ≠ 0 ∨ e6.2.1 ≠ 0 ∨ (e6.2.2 ≠ 10 ∧ e6.2.2 ≠ 100) then
    IdentResult.invalid
  else
    match matchTable md e7 ec with
    | some md' => IdentResult.ok md'
    | none =>
      if e7.1 = 0x73 ∧ e7.2.1 = 0x03 ∧ e7.2.2 = 0x50 ∧
          ec.1 = 0x73 ∧ (ec.2.1 = 0x01 ∨ ec.2.1 = 0x02) then
        IdentResult.ok (setDefaults { md with proto_version := Proto.v5 })
      else if ec.1 = 0x88 ∧ ec.2.1 = 0x08 then
        let md' := setDefaults { md with proto_version := Proto.v3 }
        let md' := { md' with x_bits := 16, y_bits := 12 }
        IdentResult.ok
          (if tsProbe then { md' with flags := md'.flags &&& (0xffffffff - 0x02) }
           else md')
      else if ec.1 = 0x88 ∧ ec.2.1 = 0x07 ∧ 0x90 ≤ ec.2.2 ∧ ec.2.2 ≤ 0x9d then
        IdentResult.ok (setDefaults { md with proto_version := Proto.v3 })
      else IdentResult.invalid

/-- Packet-size assignment of `deviceSpecificInit` (line 180):
`pktsize = proto_version == ALPS_PROTO_V4 ? 8 : 6`. -/
def deviceSpecificInitPktsize (md : AlpsData) : AlpsData :=
  { md with pktsize := if md.proto_version = Proto.v4 then 8 else 6 }

/-- C7: with E7 report `{0x73, 0x02, 0x64}` and EC byte 2 equal to 0x8A,
identification matches the last table row, selecting protocol V4, and
device initialisation then sets the packet size to 8. -/
theorem claim_C7 (md0 : AlpsData) (e6 ec : Nat × Nat × Nat) (ts : Bool)
    (he6 : e6.1 &&& 0xf8 = 0 ∧ e6.2.1 = 0 ∧ (e6.2.2 = 10 ∨ e6.2.2 = 100))
    (hec : ec.2.2 = 0x8a) :
    ∃ md', identify md0 e6 (0x73, 0x02, 0x64) ec ts = IdentResult.ok md' ∧
      md'.proto_version = Proto.v4 ∧
      (deviceSpecificInitPktsize md').pktsize = 8 := by
  unfold identify
  rw [if_neg (by tauto)]
  have hfind : matchTable md0 (0x73, 0x02, 0x64) ec =
      some { setDefaults { md0 with proto_version := Proto.v4 } with
        flags := 0, byte0 := 0x8f, mask0 := 0x8f } := by
    unfold matchTable
    rw [show alps_model_data.find? (fun m =>
        (m.sig0 == 0x73 && m.sig1 == 0x02 && m.sig2 == 0x64) &&
        (m.command_mode_resp == 0 || m.command_mode_resp == ec.2.2)) =
      some ⟨0x73, 0x02, 0x64, 0x8a, Proto.v4, 0x8f, 0x8f, 0⟩ from by
        simp [alps_model_data, List.find?, hec]]
  rw [hfind]
  exact ⟨_, rfl, rfl, by simp [deviceSpecificInitPktsize, setDefaults]⟩

/-- Witness for C7. -/
theorem claim_C7_witness :
    ((0, 0, 10) : Nat × Nat × Nat).1 &&& 0xf8 = 0 ∧
    ∃ md', identify mdV4fresh (0, 0, 10) (0x73, 0x02, 0x64) (0x88, 0x07, 0x8a) true =
        IdentResult.ok md' ∧
      md'.proto_version = Proto.v4 ∧
      (deviceSpecificInitPktsize md').pktsize = 8 :=
  ⟨rfl,
   claim_C7 mdV4fresh (0, 0, 10) (0x88, 0x07, 0x8a) true
     ⟨rfl, rfl, Or.inl rfl⟩ rfl⟩

/-- C8 (amended): identification rejects the device unless bits 3-7 of E6
byte 0 are clear, byte 1 is 0, and byte 2 is 10 or 100; bits 0-2 of byte 0
(the button state) are ignored, so E6 reports other than `{0,0,10}` and
`{0,0,100}` can still be accepted. -/
theorem claim_C8 (md0 : AlpsData) (e6 e7 ec : Nat × Nat × Nat) (ts : Bool) :
    (¬(e6.1 &&& 0xf8 = 0 ∧ e6.2.1 = 0 ∧ (e6.2.2 = 10 ∨ e6.2.2 = 100)) →
      identify md0 e6 e7 ec ts = IdentResult.invalid) ∧
    (∀ b : Nat, b ≤ 7 →
      identify md0 (b, 0, 10) e7 ec ts = identify md0 (0, 0, 10) e7 ec ts) := by
  constructor
  · intro h
    unfold identify
    rw [if_pos (by tauto)]
  · intro b hb
    have hbz : b &&& 0xf8 = 0 := by
      interval_cases b <;> decide
    unfold identify
    rw [if_neg (by simp [hbz])]
    conv_rhs => rw [if_neg (show ¬(((0 : Nat), (0 : Nat), (10 : Nat)).1 &&& 0xf8 ≠ 0 ∨
      ((0 : Nat), (0 : Nat), (10 : Nat)).2.1 ≠ 0 ∨
      (((0 : Nat), (0 : Nat), (10 : Nat)).2.2 ≠ 10 ∧
        ((0 : Nat), (0 : Nat), (10 : Nat)).2.2 ≠ 100)) from by simp)]

/-- Counterexample for C8 as stated: the E6 report `{0x01, 0x00, 10}` is
neither `{0,0,10}` nor `{0,0,100}` with bits 0-2 clear (bit 0 of byte 0 is
set), yet identification accepts the device rather than rejecting it. -/
theorem claim_C8_counterexample :
    identify mdV4fresh (1, 0, 10) (0x73, 0x02, 0x64) (0x88, 0x07, 0x8a) true ≠
      IdentResult.invalid := by
  decide

/-- Witness for C8 (amended): an E6 report with a non-zero second byte is
rejected. -/
theorem claim_C8_witness :
    ¬(((0, 1, 10) : Nat × Nat × Nat).1 &&& 0xf8 = 0 ∧
        ((0, 1, 10) : Nat × Nat × Nat).2.1 = 0 ∧
        (((0, 1, 10) : Nat × Nat × Nat).2.2 = 10 ∨
          ((0, 1, 10) : Nat × Nat × Nat).2.2 = 100)) ∧
    identify mdV4fresh (0, 1, 10) (0x73, 0x02, 0x64) (0x88, 0x07, 0x8a) true =
      IdentResult.invalid :=
  ⟨by decide,
   (claim_C8 mdV4fresh (0, 1, 10) (0x73, 0x02, 0x64) (0x88, 0x07, 0x8a) true).1
     (by decide)⟩


/-! ## Gesture state machine (`dispatchEventsWithInfo`, lines 965-1535, and
`processTrackstickPacketV3`, lines 604-678)

The per-session state lives partly in the base class
(`VoodooPS2TouchPadBase`, not part of this file's source) and partly in
`modelData`; the immutable configuration knobs and the mutable fields are
gathered into two records.  The smoothing filters and the middle-button
merger are base-class members whose bodies are outside the source; they
enter the model as opaque operation parameters. -/

/-- Touch modes (`MODE_*`). -/
inductive TouchMode where
  | notouch | move | vscroll | hscroll | cscroll | mtouch
  | drag | draglock | dragnotouch | predrag
deriving DecidableEq

/-- Output events of the gesture layer: relative pointer events, scroll
events, discrete swipe messages, and timer arm/cancel operations. -/
inductive Event where
  | rel (dx dy : Int) (buttons : Nat)
  | scroll (dv dh : Int)
  | swipeUp | swipeDown | swipeLeft | swipeRight
  | swipe4Up | swipe4Down | swipe4Left | swipe4Right
  | setScrollTimer (interval : Nat)
  | setDragTimer (interval : Nat)
  | cancelDragTimer
deriving DecidableEq

/-- Modelled from the spec: the optional "undo decay" and moving-average
smoothing filters of §4.4 step (4) are base-class components absent from
this file; only a reset operation and a filtering step on integer samples
are assumed. -/
structure FilterOps (σ : Type) where
  reset : σ → σ
  filter : σ → Int → σ × Int

/-- Middle-button source tag `fromTrackpad`. -/
def fromTrackpad : Nat := 0

/-- Middle-button source tag `fromPassthru`. -/
def fromPassthru : Nat := 1

/-- Middle-button source tag `fromCancel`. -/
def fromCancel : Nat := 2

/-- Configuration knobs read by `dispatchEventsWithInfo` (immutable during
a session). -/
structure GestureConfig where
  xupmm : Int
  yupmm : Int
  clickpadtype : Nat
  ignoredeltasstart : Nat
  unsmoothinput : Bool
  smoothinput : Bool
  outzone_wt : Bool
  maxaftertyping : Nat
  zonel : Int
  zoner : Int
  zoneb : Int
  zonet : Int
  z_finger : Int
  momentumscroll : Bool
  momentumscrolltimer : Nat
  momentumscrollsamplesmin : Nat
  maxtaptime : Nat
  clicking : Bool
  immediateclick : Bool
  rtap : Bool
  swapdoubletriple : Bool
  dragging : Bool
  draglock : Bool
  dragexitdelay : Nat
  maxdragtime : Nat
  maxdbltaptime : Nat
  tapthreshx : Int
  tapthreshy : Int
  dblthreshx : Int
  dblthreshy : Int
  divisorx : Int
  divisory : Int
  bogusdxthresh : Int
  bogusdythresh : Int
  wsticky : Bool
  palm : Bool
  zlimit : Int
  palm_wt : Bool
  wvdivisor : Int
  whdivisor : Int
  hscroll : Bool
  scroll : Bool
  scrolldxthresh : Int
  scrolldythresh : Int
  swipedx : Int
  swipedy : Int
  vsticky : Bool
  hsticky : Bool
  redge : Int
  bedge : Int
  ledge : Int
  tedge : Int
  centerx : Int
  centery : Int
  cscrolldivisor : Int
  vscrolldivisor : Int
  hscrolldivisor : Int
  ctrigger : Nat
  draglocktempmask : Nat
  modifierdown : Nat
  keytime : Nat
  hasDragTimer : Bool
deriving DecidableEq

/-- Mutable gesture-layer state, with the four smoothing-filter states
abstracted by `σ`; `lastz` lives in `modelData` in the source. -/
structure TouchpadState (σ : Type) where
  touchmode : TouchMode
  lastbuttons : Nat
  passbuttons : Nat
  last_fingers : Nat
  ignoredeltas : Nat
  x_undo : σ
  y_undo : σ
  x_avg : σ
  y_avg : σ
  lastx : Int
  lasty : Int
  lastx2 : Int
  lasty2 : Int
  lastz : Int
  xrest : Int
  yrest : Int
  scrollrest : Int
  inSwipeLeft : Bool
  inSwipeRight : Bool
  inSwipeUp : Bool
  inSwipeDown : Bool
  inSwipe4Left : Bool
  inSwipe4Right : Bool
  inSwipe4Up : Bool
  inSwipe4Down : Bool
  xmoved : Int
  ymoved : Int
  untouchtime : Nat
  touchtime : Nat
  touchx : Int
  touchy : Int
  wasdouble : Bool
  wastriple : Bool
  tracksecondary : Bool
  dy_history : List Int
  time_history : List Nat
  momentumscrollinterval : Nat
  momentumscrollsum : Int
  momentumscrollcurrent : Int
  momentumscrollrest1 : Int
  momentumscrollrest2 : Int
  draglocktemp : Nat
  ignoreall : Bool

/-- Modelled from the spec: `isFingerTouch` of the base class — pressure
above the touch threshold. -/
def isFingerTouch (cfg : GestureConfig) (z : Int) : Bool :=
  cfg.z_finger < z

/-- Modelled from the spec: `isTouchMode` of the base class — the gesture
modes during which a finger rests on the pad (all but `NoTouch`, `PreDrag`
and `DragNoTouch`, which per §4.4 await a following touch). -/
def isTouchMode {σ : Type} (st : TouchpadState σ) : Bool :=
  st.touchmode != TouchMode.notouch && st.touchmode != TouchMode.predrag &&
    st.touchmode != TouchMode.dragnotouch

/-- Result of the entry bookkeeping of `dispatchEventsWithInfo`: the
updated state, the axis-normalised raw coordinates, the filtered
coordinates and the merged button mask. -/
structure PreOut (σ : Type) where
  st : TouchpadState σ
  xr : Int
  yr : Int
  x : Int
  y : Int
  buttons : Nat

/-- Entry bookkeeping of `dispatchEventsWithInfo` (lines 976-1039):
axis-resolution normalisation, middle-button merging, finger-change
handling, optional unsmooth/smooth filtering and the ignore-deltas
countdown.  `mb` is the base-class `middleButton` merger. -/
def dispatchPre {σ : Type} (mb : Nat → Nat → Nat) (fops : FilterOps σ)
    (cfg : GestureConfig) (st : TouchpadState σ) (xraw yraw : Int)
    (fingers : Nat) (buttonsraw : Nat) : PreOut σ :=
  let xraw := if cfg.xupmm < cfg.yupmm then (xraw * cfg.yupmm).tdiv cfg.xupmm else xraw
  let yraw := if cfg.yupmm < cfg.xupmm then (yraw * cfg.xupmm).tdiv cfg.yupmm else yraw
  let buttons := buttonsraw
  let buttons := if cfg.clickpadtype = 0 ∨ fingers = 3 then
      mb buttons (if fingers = 3 then fromPassthru else fromTrackpad)
    else buttons
  let buttons := if st.last_fingers = 0 ∧ 0 < fingers then
      mb (buttonsraw ||| st.passbuttons) fromCancel
    else buttons
  let ign := if 0 < st.last_fingers ∧ 0 < fingers ∧ st.last_fingers ≠ fingers then
      cfg.ignoredeltasstart
    else st.ignoredeltas
  let fingerChange := st.last_fingers ≠ fingers
  let xu0 := if fingerChange then fops.reset st.x_undo else st.x_undo
  let yu0 := if fingerChange then fops.reset st.y_undo else st.y_undo
  let xa0 := if fingerChange then fops.reset st.x_avg else st.x_avg
  let ya0 := if fingerChange then fops.reset st.y_avg else st.y_avg
  let rxu := if cfg.unsmoothinput then fops.filter xu0 xraw else (xu0, xraw)
  let ryu := if cfg.unsmoothinput then fops.filter yu0 yraw else (yu0, yraw)
  let rxa := if cfg.smoothinput then fops.filter xa0 rxu.2 else (xa0, rxu.2)
  let rya := if cfg.smoothinput then fops.filter ya0 ryu.2 else (ya0, ryu.2)
  let x := rxa.2
  let y := rya.2
  let hasIgn := ign ≠ 0
  let ign2 := if hasIgn then ign - 1 else ign
  let finalReset := hasIgn ∧ ign2 = 0
  let st' := { st with
    lastbuttons := buttonsraw
    ignoredeltas := ign2
    x_undo := if finalReset then fops.reset rxu.1 else rxu.1
    y_undo := if finalReset then fops.reset ryu.1 else ryu.1
    x_avg := if finalReset then fops.reset rxa.1 else rxa.1
    y_avg := if finalReset then fops.reset rya.1 else rya.1
    lastx := if hasIgn then x else st.lastx
    lasty := if hasIgn then y else st.lasty }
  ⟨st', xraw, yraw, x, y, buttons⟩

/-- Finger-lift handling of `dispatchEventsWithInfo` (lines 1059-1156):
reset of the swipe/scroll accumulators, the momentum-scroll start check,
and tap resolution into synthesized clicks and drag states.  Returns the
updated state, the possibly remapped button mask and the emitted events. -/
def liftSeg {σ : Type} (cfg : GestureConfig) (st : TouchpadState σ)
    (buttons : Nat) (z : Int) (fingers : Nat) (now_ns : Nat) :
    TouchpadState σ × Nat × List Event :=
  if z < cfg.z_finger ∧ isTouchMode st then
    let interval := st.time_history.getLastD 0 - st.time_history.headD 0
    let momOk := st.touchmode = TouchMode.mtouch ∧ cfg.momentumscroll ∧
      cfg.momentumscrolltimer ≠ 0
    let momAssign := momOk ∧ cfg.momentumscrollsamplesmin < st.dy_history.length
    let momFire := momAssign ∧ interval ≠ 0
    let evm : List Event :=
      if momFire then [Event.setScrollTimer cfg.momentumscrolltimer] else []
    let tapRes : Nat × TouchMode × List Event × Nat :=
      if now_ns - st.touchtime < cfg.maxtaptime ∧ cfg.clicking then
        match st.touchmode with
        | TouchMode.drag =>
          let base := if ¬cfg.immediateclick then buttons &&& (0xffffffff - 0x7)
            else buttons
          let evd : List Event := if ¬cfg.immediateclick then
              [Event.rel 0 0 (base ||| 1), Event.rel 0 0 base] else []
          let b2 := if st.wastriple ∧ cfg.rtap then
              base ||| (if ¬cfg.swapdoubletriple then 4 else 2)
            else if st.wasdouble ∧ cfg.rtap then
              base ||| (if ¬cfg.swapdoubletriple then 2 else 4)
            else base ||| 1
          (b2, TouchMode.notouch, evd, st.draglocktemp)
        | TouchMode.draglock => (buttons, TouchMode.notouch, [], st.draglocktemp)
        | _ =>
          if st.wastriple ∧ cfg.rtap then
            (buttons ||| (if ¬cfg.swapdoubletriple then 4 else 2),
              TouchMode.notouch, [], st.draglocktemp)
          else if st.wasdouble ∧ cfg.rtap then
            if st.lastz = 126 ∧ st.last_fingers = 2 ∧ fingers = 0 then
              (buttons ||| (if ¬cfg.swapdoubletriple then 2 else 4),
                TouchMode.notouch, [], st.draglocktemp)
            else (buttons, st.touchmode, [], st.draglocktemp)
          else if st.last_fingers = 1 ∧ fingers = 0 then
            (buttons ||| 1,
              if cfg.dragging then TouchMode.predrag else TouchMode.notouch,
              [], st.draglocktemp)
          else (buttons, st.touchmode, [], st.draglocktemp)
      else
        if (st.touchmode = TouchMode.drag ∨ st.touchmode = TouchMode.draglock) ∧
            (cfg.draglock ∨ st.draglocktemp ≠ 0 ∨
              (cfg.hasDragTimer ∧ cfg.dragexitdelay ≠ 0)) then
          (buttons, TouchMode.dragnotouch,
            if ¬cfg.draglock ∧ st.draglocktemp = 0 then
              [Event.cancelDragTimer, Event.setDragTimer cfg.dragexitdelay]
            else [],
            st.draglocktemp)
        else (buttons, TouchMode.notouch, [], 0)
    let st' := { st with
      xrest := 0
      yrest := 0
      scrollrest := 0
      inSwipeLeft := false
      inSwipeRight := false
      inSwipeUp := false
      inSwipeDown := false
      inSwipe4Left := false
      inSwipe4Right := false
      inSwipe4Up := false
      inSwipe4Down := false
      xmoved := 0
      ymoved := 0
      untouchtime := now_ns
      tracksecondary := false
      momentumscrollinterval :=
        if momAssign then interval else st.momentumscrollinterval
      momentumscrollsum :=
        if momFire then st.dy_history.sum else st.momentumscrollsum
      momentumscrollcurrent :=
        if momFire then (cfg.momentumscrolltimer : Int) * (-st.dy_history.sum)
        else st.momentumscrollcurrent
      momentumscrollrest1 := if momFire then 0 else st.momentumscrollrest1
      momentumscrollrest2 := if momFire then 0 else st.momentumscrollrest2
      time_history := []
      dy_history := []
      touchmode := tapRes.2.1
      draglocktemp := tapRes.2.2.2
      wasdouble := false
      wastriple := false }
    (st', tapRes.1, evm ++ tapRes.2.2.1)
  else (st, buttons, [])

/-- Pre-drag timeout and tap-movement cancellation (lines 1159-1178). -/
def tapCancelSeg {σ : Type} (cfg : GestureConfig) (st : TouchpadState σ)
    (xr yr z : Int) (now_ns : Nat) : TouchpadState σ :=
  let st := if st.touchmode = TouchMode.predrag ∧
      cfg.maxdragtime ≤ now_ns - st.untouchtime then
    { st with touchmode := TouchMode.notouch } else st
  if isTouchMode st ∧ isFingerTouch cfg z then
    let dx := if st.touchx < xr then xr - st.touchx else st.touchx - xr
    let dy := if st.touchy < yr then st.touchy - yr else yr - st.touchy
    if ¬st.wasdouble ∧ ¬st.wastriple ∧ (cfg.tapthreshx < dx ∨ cfg.tapthreshy < dy) then
      { st with touchtime := 0 }
    else if cfg.dblthreshx < dx ∨ cfg.dblthreshy < dy then
      { st with touchtime := 0 }
    else st
  else st

/-- Shared `Move`/`Drag`/`DragLock` motion body (lines 1193-1204):
divisor-remainder delta accumulation with the bogus-delta filter. -/
def moveBody {σ : Type} (cfg : GestureConfig) (st : TouchpadState σ)
    (x y : Int) (fingers : Nat) (now_ns : Nat) :
    TouchpadState σ × Int × Int :=
  if st.last_fingers = fingers ∧ 100000000 < now_ns - st.touchtime then
    let dx := x - st.lastx + st.xrest
    let dy := y - st.lasty + st.yrest
    if cfg.bogusdxthresh < |dx| ∨ cfg.bogusdythresh < |dy| then
      ({ st with xrest := 0, yrest := 0 }, 0, 0)
    else
      ({ st with xrest := dx.tmod cfg.divisorx, yrest := dy.tmod cfg.divisory },
        dx, dy)
  else (st, 0, 0)

/-- Two-finger scroll body of the `MultiTouch` arm (lines 1227-1263):
threshold and divisor-remainder handling with the direction-change history
reset and the velocity-history sampling. -/
def mtouchScroll {σ : Type} (cfg : GestureConfig) (st : TouchpadState σ)
    (x y z : Int) (now_ns : Nat) : TouchpadState σ × List Event :=
  if cfg.palm ∧ cfg.zlimit < z then (st, [])
  else if cfg.palm_wt ∧ now_ns - cfg.keytime < cfg.maxaftertyping then (st, [])
  else
    let dy0 := if cfg.wvdivisor ≠ 0 then y - st.lasty + st.yrest else 0
    let dx0 := if cfg.whdivisor ≠ 0 ∧ cfg.hscroll then x - st.lastx + st.xrest else 0
    let yrest0 := if cfg.wvdivisor ≠ 0 then dy0.tmod cfg.wvdivisor else 0
    let xrest0 := if cfg.whdivisor ≠ 0 ∧ cfg.hscroll then dx0.tmod cfg.whdivisor else 0
    let resetHist := (decide (dy0 < 0) ≠ decide (st.dy_history.getLastD 0 < 0)) ∨ dy0 = 0
    let dyh := (if resetHist then [] else st.dy_history) ++ [dy0]
    let th := (if resetHist then [] else st.time_history) ++ [now_ns]
    let xrest1 := if |dx0| < cfg.scrolldxthresh then dx0 else xrest0
    let dx1 := if |dx0| < cfg.scrolldxthresh then 0 else dx0
    let yrest1 := if |dy0| < cfg.scrolldythresh then dy0 else yrest0
    let dy1 := if |dy0| < cfg.scrolldythresh then 0 else dy0
    let ev : List Event := if dy1 ≠ 0 ∨ dx1 ≠ 0 then
        [Event.scroll (if cfg.wvdivisor ≠ 0 then (-dy1).tdiv cfg.wvdivisor else 0)
          (if cfg.whdivisor ≠ 0 ∧ cfg.hscroll then (-dx1).tdiv cfg.whdivisor else 0)]
      else []
    ({ st with
        xrest := xrest1
        yrest := yrest1
        dy_history := dyh
        time_history := th }, ev)

/-- Three-finger swipe arm (lines 1266-1305). -/
def swipe3Body {σ : Type} (cfg : GestureConfig) (st : TouchpadState σ)
    (x y : Int) : TouchpadState σ × List Event :=
  let xm := st.xmoved + (x - st.lastx)
  let ym := st.ymoved + (y - st.lasty)
  if ym < -cfg.swipedy ∧ ¬st.inSwipeUp ∧ ¬st.inSwipe4Up then
    ({ st with inSwipeUp := true, inSwipeDown := false, xmoved := xm, ymoved := 0 },
      [Event.swipeUp])
  else if cfg.swipedy < ym ∧ ¬st.inSwipeDown ∧ ¬st.inSwipe4Down then
    ({ st with inSwipeDown := true, inSwipeUp := false, xmoved := xm, ymoved := 0 },
      [Event.swipeDown])
  else if cfg.swipedx < xm ∧ ¬st.inSwipeRight ∧ ¬st.inSwipe4Right then
    ({ st with inSwipeRight := true, inSwipeLeft := false, xmoved := 0, ymoved := ym },
      [Event.swipeRight])
  else if xm < -cfg.swipedx ∧ ¬st.inSwipeLeft ∧ ¬st.inSwipe4Left then
    ({ st with inSwipeLeft := true, inSwipeRight := false, xmoved := 0, ymoved := ym },
      [Event.swipeLeft])
  else ({ st with xmoved := xm, ymoved := ym }, [])

/-- Four-finger swipe arm (lines 1307-1345). -/
def swipe4Body {σ : Type} (cfg : GestureConfig) (st : TouchpadState σ)
    (x y : Int) : TouchpadState σ × List Event :=
  let xm := st.xmoved + (x - st.lastx)
  let ym := st.ymoved + (y - st.lasty)
  if ym < -cfg.swipedy ∧ ¬st.inSwipe4Up then
    ({ st with
        inSwipe4Up := true
        inSwipeUp := false
        inSwipe4Down := false
        xmoved := xm
        ymoved := 0 }, [Event.swipe4Up])
  else if cfg.swipedy < ym ∧ ¬st.inSwipe4Down then
    ({ st with
        inSwipe4Down := true
        inSwipeDown := false
        inSwipe4Up := false
        xmoved := xm
        ymoved := 0 }, [Event.swipe4Down])
  else if cfg.swipedx < xm ∧ ¬st.inSwipe4Right then
    ({ st with
        inSwipe4Right := true
        inSwipeRight := false
        inSwipe4Left := false
        xmoved := 0
        ymoved := ym }, [Event.swipe4Right])
  else if xm < -cfg.swipedx ∧ ¬st.inSwipe4Left then
    ({ st with
        inSwipe4Left := true
        inSwipeLeft := false
        inSwipe4Right := false
        xmoved := 0
        ymoved := ym }, [Event.swipe4Left])
  else ({ st with xmoved := xm, ymoved := ym }, [])

/-- Result of the per-mode motion switch: updated state, residual pointer
deltas, button mask and emitted events. -/
structure MotionOut (σ : Type) where
  st : TouchpadState σ
  dx : Int
  dy : Int
  buttons : Nat
  events : List Event

/-- The per-mode motion switch of `dispatchEventsWithInfo` (lines
1183-1445), including the `Drag`/`DragLock` → `Move` and `DragNoTouch` →
`PreDrag` fallthroughs of the source switch. -/
def motionSeg {σ : Type} (cfg : GestureConfig) (st : TouchpadState σ)
    (buttons : Nat) (x y z : Int) (fingers : Nat) (now_ns : Nat) :
    MotionOut σ :=
  match st.touchmode with
  | TouchMode.drag | TouchMode.draglock =>
    let buttons := if st.touchmode = TouchMode.draglock ∨
        (¬cfg.immediateclick ∨ cfg.maxdbltaptime < now_ns - st.touchtime) then
      buttons ||| 1 else buttons
    let r := moveBody cfg st x y fingers now_ns
    ⟨r.1, r.2.1, r.2.2, buttons, []⟩
  | TouchMode.move =>
    let r := moveBody cfg st x y fingers now_ns
    ⟨r.1, r.2.1, r.2.2, buttons, []⟩
  | TouchMode.mtouch =>
    (match fingers with
    | 1 =>
      if st.last_fingers = fingers ∧ ¬cfg.wsticky then
        ⟨{ st with
            dy_history := []
            time_history := []
            touchmode := TouchMode.move }, 0, 0, buttons, []⟩
      else if st.last_fingers ≠ fingers then ⟨st, 0, 0, buttons, []⟩
      else
        let r := mtouchScroll cfg st x y z now_ns
        ⟨r.1, 0, 0, buttons, r.2⟩
    | 2 =>
      if st.last_fingers ≠ fingers then ⟨st, 0, 0, buttons, []⟩
      else
        let r := mtouchScroll cfg st x y z now_ns
        ⟨r.1, 0, 0, buttons, r.2⟩
    | 3 =>
      let r := swipe3Body cfg st x y
      ⟨r.1, 0, 0, buttons, r.2⟩
    | 4 =>
      let r := swipe4Body cfg st x y
      ⟨r.1, 0, 0, buttons, r.2⟩
    | _ => ⟨st, 0, 0, buttons, []⟩)
  | TouchMode.vscroll =>
    if ¬cfg.vsticky ∧ (x < cfg.redge ∨ 1 < fingers ∨ cfg.zlimit < z) then
      ⟨{ st with touchmode := TouchMode.notouch }, 0, 0, buttons, []⟩
    else if cfg.palm_wt ∧ now_ns - cfg.keytime < cfg.maxaftertyping then
      ⟨st, 0, 0, buttons, []⟩
    else
      let dy0 := y - st.lasty + st.scrollrest
      let sr0 := dy0.tmod cfg.vscrolldivisor
      let sr1 := if |dy0| < cfg.scrolldythresh then dy0 else sr0
      let dy1 := if |dy0| < cfg.scrolldythresh then 0 else dy0
      let ev : List Event := if dy1 ≠ 0 then
          [Event.scroll ((-dy1).tdiv cfg.vscrolldivisor) 0] else []
      ⟨{ st with scrollrest := sr1 }, 0, 0, buttons, ev⟩
  | TouchMode.hscroll =>
    if ¬cfg.hsticky ∧ (y < cfg.bedge ∨ 1 < fingers ∨ cfg.zlimit < z) then
      ⟨{ st with touchmode := TouchMode.notouch }, 0, 0, buttons, []⟩
    else if cfg.palm_wt ∧ now_ns - cfg.keytime < cfg.maxaftertyping then
      ⟨st, 0, 0, buttons, []⟩
    else
      let dx0 := x - st.lastx + st.scrollrest
      let sr0 := dx0.tmod cfg.hscrolldivisor
      let sr1 := if |dx0| < cfg.scrolldxthresh then dx0 else sr0
      let dx1 := if |dx0| < cfg.scrolldxthresh then 0 else dx0
      let ev : List Event := if dx1 ≠ 0 then
          [Event.scroll 0 (dx1.tdiv cfg.hscrolldivisor)] else []
      ⟨{ st with scrollrest := sr1 }, 0, 0, buttons, ev⟩
  | TouchMode.cscroll =>
    if cfg.palm_wt ∧ now_ns - cfg.keytime < cfg.maxaftertyping then
      ⟨st, 0, 0, buttons, []⟩
    else
      let dxa := if y < cfg.centery then x - st.lastx else st.lastx - x
      let dxb := if x < cfg.centerx then dxa + (st.lasty - y)
        else dxa + (y - st.lasty) + st.scrollrest
      let sr0 := if x < cfg.centerx then st.scrollrest
        else dxb.tmod cfg.cscrolldivisor
      let sr1 := if |dxb| < cfg.scrolldxthresh then dxb else sr0
      let dx1 := if |dxb| < cfg.scrolldxthresh then 0 else dxb
      let ev : List Event := if dx1 ≠ 0 then
          [Event.scroll (dx1.tdiv cfg.cscrolldivisor) 0] else []
      ⟨{ st with scrollrest := sr1 }, 0, 0, buttons, ev⟩
  | TouchMode.dragnotouch =>
    let buttons := buttons ||| 1
    let buttons := if ¬cfg.immediateclick ∧
        (¬cfg.palm_wt ∨ cfg.maxaftertyping ≤ now_ns - cfg.keytime) then
      buttons ||| 1 else buttons
    ⟨st, 0, 0, buttons, []⟩
  | TouchMode.predrag =>
    let buttons := if ¬cfg.immediateclick ∧
        (¬cfg.palm_wt ∨ cfg.maxaftertyping ≤ now_ns - cfg.keytime) then
      buttons ||| 1 else buttons
    ⟨st, 0, 0, buttons, []⟩
  | TouchMode.notouch => ⟨st, 0, 0, buttons, []⟩

/-- Touch capture and post-motion mode re-evaluation (lines 1448-1520):
double/triple-tap capture, momentum-scroll cancellation on touch, the
`PreDrag`/`DragNoTouch` promotions, the `MultiTouch` promotion, and the
corner-scroll and edge-scroll entry checks. -/
def postSeg {σ : Type} (cfg : GestureConfig) (st : TouchpadState σ)
    (x y z : Int) (fingers : Nat) (now_ns : Nat) :
    TouchpadState σ × List Event :=
  let st :=
    if isFingerTouch cfg z then
      let st :=
        if (¬cfg.palm_wt ∨ cfg.maxaftertyping ≤ now_ns - cfg.keytime) ∧
            st.momentumscrollcurrent = 0 then
          let st := if ¬isTouchMode st then
              { st with touchtime := now_ns, touchx := x, touchy := y }
            else st
          if fingers = 2 then { st with wasdouble := true }
          else if fingers = 3 then { st with wastriple := true }
          else st
        else st
      { st with momentumscrollcurrent := 0 }
    else st
  let st :=
    if st.touchmode = TouchMode.predrag ∧ isFingerTouch cfg z then
      { st with
        touchmode := TouchMode.drag
        draglocktemp := cfg.modifierdown &&& cfg.draglocktempmask }
    else st
  let dragLockPromote :=
    st.touchmode = TouchMode.dragnotouch ∧ isFingerTouch cfg z
  let ev1 : List Event :=
    if dragLockPromote ∧ cfg.hasDragTimer then [Event.cancelDragTimer] else []
  let st := if dragLockPromote then { st with touchmode := TouchMode.draglock }
    else st
  let st :=
    if st.touchmode ≠ TouchMode.mtouch ∧ 1 < fingers ∧ isFingerTouch cfg z then
      { st with touchmode := TouchMode.mtouch, tracksecondary := false }
    else st
  let st :=
    if cfg.scroll ∧ cfg.cscrolldivisor ≠ 0 then
      let st := if st.touchmode = TouchMode.notouch ∧ cfg.z_finger < z ∧
          cfg.tedge < y ∧ (cfg.ctrigger = 1 ∨ cfg.ctrigger = 9) then
        { st with touchmode := TouchMode.cscroll } else st
      let st := if st.touchmode = TouchMode.notouch ∧ cfg.z_finger < z ∧
          cfg.tedge < y ∧ cfg.redge < x ∧ cfg.ctrigger = 2 then
        { st with touchmode := TouchMode.cscroll } else st
      let st := if st.touchmode = TouchMode.notouch ∧ cfg.z_finger < z ∧
          cfg.redge < x ∧ (cfg.ctrigger = 3 ∨ cfg.ctrigger = 9) then
        { st with touchmode := TouchMode.cscroll } else st
      let st := if st.touchmode = TouchMode.notouch ∧ cfg.z_finger < z ∧
          cfg.redge < x ∧ y < cfg.bedge ∧ cfg.ctrigger = 4 then
        { st with touchmode := TouchMode.cscroll } else st
      let st := if st.touchmode = TouchMode.notouch ∧ cfg.z_finger < z ∧
          y < cfg.bedge ∧ (cfg.ctrigger = 5 ∨ cfg.ctrigger = 9) then
        { st with touchmode := TouchMode.cscroll } else st
      let st := if st.touchmode = TouchMode.notouch ∧ cfg.z_finger < z ∧
          y < cfg.bedge ∧ x < cfg.ledge ∧ cfg.ctrigger = 6 then
        { st with touchmode := TouchMode.cscroll } else st
      let st := if st.touchmode = TouchMode.notouch ∧ cfg.z_finger < z ∧
          x < cfg.ledge ∧ (cfg.ctrigger = 7 ∨ cfg.ctrigger = 9) then
        { st with touchmode := TouchMode.cscroll } else st
      let st := if st.touchmode = TouchMode.notouch ∧ cfg.z_finger < z ∧
          x < cfg.ledge ∧ cfg.tedge < y ∧ cfg.ctrigger = 8 then
        { st with touchmode := TouchMode.cscroll } else st
      st
    else st
  let st :=
    if (st.touchmode = TouchMode.notouch ∨
        (st.touchmode = TouchMode.hscroll ∧ cfg.bedge ≤ y)) ∧
        cfg.z_finger < z ∧ cfg.redge < x ∧ cfg.vscrolldivisor ≠ 0 ∧ cfg.scroll then
      { st with touchmode := TouchMode.vscroll, scrollrest := 0 }
    else st
  let st :=
    if (st.touchmode = TouchMode.notouch ∨
        (st.touchmode = TouchMode.vscroll ∧ x ≤ cfg.redge)) ∧
        cfg.z_finger < z ∧ cfg.bedge < y ∧ cfg.hscrolldivisor ≠ 0 ∧
        cfg.hscroll ∧ cfg.scroll then
      { st with touchmode := TouchMode.hscroll, scrollrest := 0 }
    else st
  let st :=
    if st.touchmode = TouchMode.notouch ∧ cfg.z_finger < z then
      { st with touchmode := TouchMode.move }
    else st
  (st, ev1)

/-- `dispatchEventsWithInfo` (lines 965-1535): one absolute sample through
the whole gesture state machine.  Returns the updated state and the
ordered list of emitted events; the trailing relative pointer event of
line 1523 is always present unless the sample is suppressed by the
typing-zone check or the ignore-all flag. -/
def dispatchEventsWithInfo {σ : Type} (mb : Nat → Nat → Nat)
    (fops : FilterOps σ) (cfg : GestureConfig) (st : TouchpadState σ)
    (xraw yraw z : Int) (fingers : Nat) (buttonsraw : Nat) (now_ns : Nat) :
    TouchpadState σ × List Event :=
  let pre := dispatchPre mb fops cfg st xraw yraw fingers buttonsraw
  let st := pre.st
  let x := pre.x
  let y := pre.y
  if cfg.outzone_wt ∧ cfg.z_finger < z ∧ now_ns - cfg.keytime < cfg.maxaftertyping ∧
      (x < cfg.zonel ∨ cfg.zoner < x ∨ y < cfg.zoneb ∨ cfg.zonet < y) then
    (st, [])
  else if st.ignoreall then
    (st, [])
  else
    let l := liftSeg cfg st pre.buttons z fingers now_ns
    let st := l.1
    let st := tapCancelSeg cfg st pre.xr pre.yr z now_ns
    let m := motionSeg cfg st l.2.1 x y z fingers now_ns
    let p := postSeg cfg m.st x y z fingers now_ns
    let st := p.1
    let st := { st with
      lastx := x
      lasty := y
      lastz := z
      last_fingers := fingers }
    (st, l.2.2 ++ m.events ++ p.2 ++
      [Event.rel (m.dx.tdiv cfg.divisorx) (m.dy.tdiv cfg.divisory) m.buttons])

/-- Relative trackstick motion decoded by `processTrackstickPacketV3`
(lines 622-651): sign-extended 7-bit deltas with bit 5/4 of byte 0 as the
high bit, y negated for movement direction, and the big-value spike filter
that zeroes both axes. -/
def trackstickMotion (p : List Nat) : Int × Int :=
  let x := sint8 (((pb p 0 &&& 0x20) <<< 2) ||| (pb p 1 &&& 0x7f))
  let y := sint8 (((pb p 0 &&& 0x10) <<< 3) ||| (pb p 2 &&& 0x7f))
  let y := -y
  if 0x7f ≤ |x| ∧ 0x7f ≤ |y| then (0, 0) else (x, y)

/-- `processTrackstickPacketV3` (lines 604-678): bad-packet and
end-of-stream filtering, button handling, the ignore-all latch for the
touchpad path, and dispatch of either relative motion or (with the middle
button held during motion) a scroll event. -/
def processTrackstickPacketV3 {σ : Type} (md : AlpsData)
    (st : TouchpadState σ) (p : List Nat) :
    AlpsData × TouchpadState σ × List Event :=
  if pb p 0 &&& 0x40 = 0 then (md, st, [])
  else if pb p 1 = 0x7f ∧ pb p 2 = 0x7f ∧ pb p 3 = 0x7f then (md, st, [])
  else
    let left := pb p 3 &&& 0x01 ≠ 0
    let right := pb p 3 &&& 0x02 ≠ 0
    let middle := pb p 3 &&& 0x04 ≠ 0
    let md := if ¬md.quirks_trackstick_buttons ∧ (left ∨ middle ∨ right) then
        { md with quirks_trackstick_buttons := true }
      else md
    let raw_buttons : Nat := (if left then 1 else 0) ||| (if right then 2 else 0) |||
      (if middle then 4 else 0)
    let xy := trackstickMotion p
    let x := xy.1
    let y := xy.2
    let buttons := if raw_buttons = 0 then st.lastbuttons else raw_buttons
    let st := { st with
      lastbuttons := buttons
      lastx2 := x
      lasty2 := y
      ignoreall := if x ≠ 0 ∨ y ≠ 0 then true else false }
    if (x = 0 ∧ y = 0) ∨ buttons &&& 0x04 = 0 then
      (md, st, [Event.rel (x + x.fdiv 2) (y + y.fdiv 2) buttons])
    else
      (md, st, [Event.scroll (-y) (-x)])

theorem liftSeg_momentum {σ : Type} (cfg : GestureConfig)
    (st : TouchpadState σ) (buttons : Nat) (z : Int) (fingers : Nat)
    (now_ns : Nat) (hmode : st.touchmode = TouchMode.mtouch)
    (hms : cfg.momentumscroll = true) (htimer : cfg.momentumscrolltimer ≠ 0)
    (hcount : cfg.momentumscrollsamplesmin < st.dy_history.length)
    (hwin : st.time_history.getLastD 0 - st.time_history.headD 0 ≠ 0)
    (hz : z < cfg.z_finger) :
    ∃ tl, (liftSeg cfg st buttons z fingers now_ns).2.2 =
      Event.setScrollTimer cfg.momentumscrolltimer :: tl := by
  have hitm : isTouchMode st = true := by
    simp [isTouchMode, hmode]
  unfold liftSeg
  rw [if_pos ⟨hz, hitm⟩]
  dsimp only
  rw [if_pos (show ((st.touchmode = TouchMode.mtouch ∧ cfg.momentumscroll = true ∧
      cfg.momentumscrolltimer ≠ 0) ∧
      cfg.momentumscrollsamplesmin < st.dy_history.length) ∧
      st.time_history.getLastD 0 - st.time_history.headD 0 ≠ 0 from
    ⟨⟨⟨hmode, hms, htimer⟩, hcount⟩, hwin⟩)]
  exact ⟨_, rfl⟩

/-- C6 (amended): a finger-release sample (pressure below the touch
threshold) arriving in `MultiTouch` mode with momentum scrolling enabled
(flag set and timer interval non-zero) schedules the momentum-scroll
continuation whenever the vertical-delta history holds strictly more than
the configured minimum number of samples and the history's time window is
non-zero (with the sample not suppressed by the typing-zone check or the
ignore-all flag). -/
theorem claim_C6 {σ : Type} (mb : Nat → Nat → Nat) (fops : FilterOps σ)
    (cfg : GestureConfig) (st : TouchpadState σ) (xraw yraw z : Int)
    (fingers : Nat) (buttonsraw : Nat) (now_ns : Nat)
    (hmode : st.touchmode = TouchMode.mtouch)
    (hms : cfg.momentumscroll = true) (htimer : cfg.momentumscrolltimer ≠ 0)
    (hcount : cfg.momentumscrollsamplesmin < st.dy_history.length)
    (hwin : st.time_history.getLastD 0 - st.time_history.headD 0 ≠ 0)
    (hz : z < cfg.z_finger) (hig : st.ignoreall = false)
    (hoz : cfg.outzone_wt = false) :
    Event.setScrollTimer cfg.momentumscrolltimer ∈
      (dispatchEventsWithInfo mb fops cfg st xraw yraw z fingers buttonsraw
        now_ns).2 := by
  unfold dispatchEventsWithInfo
  dsimp only
  rw [if_neg (by simp [hoz]), if_neg (show
      ¬(dispatchPre mb fops cfg st xraw yraw fingers buttonsraw).st.ignoreall = true from by
    rw [show (dispatchPre mb fops cfg st xraw yraw fingers buttonsraw).st.ignoreall =
        st.ignoreall from rfl, hig]
    simp)]
  obtain ⟨tl, htl⟩ := liftSeg_momentum cfg
    (dispatchPre mb fops cfg st xraw yraw fingers buttonsraw).st
    (dispatchPre mb fops cfg st xraw yraw fingers buttonsraw).buttons
    z fingers now_ns
    (by rw [show (dispatchPre mb fops cfg st xraw yraw fingers buttonsraw).st.touchmode =
        st.touchmode from rfl]; exact hmode)
    hms htimer
    (by rw [show (dispatchPre mb fops cfg st xraw yraw fingers buttonsraw).st.dy_history =
        st.dy_history from rfl]; exact hcount)
    (by rw [show (dispatchPre mb fops cfg st xraw yraw fingers buttonsraw).st.time_history =
        st.time_history from rfl]; exact hwin)
    hz
  rw [htl]
  simp

/-- Trivial filter state for concrete runs of the gesture machine. -/
def fopsUnit : FilterOps Unit := ⟨fun s => s, fun s v => (s, v)⟩

/-- Identity middle-button merger for concrete runs. -/
def mbId : Nat → Nat → Nat := fun b _ => b

/-- Concrete configuration for momentum-scroll runs: momentum scrolling
enabled with a minimum of 3 velocity-history samples, tapping disabled. -/
def cfgMomentum : GestureConfig :=
  { xupmm := 1, yupmm := 1, clickpadtype := 1, ignoredeltasstart := 0,
    unsmoothinput := false, smoothinput := false, outzone_wt := false,
    maxaftertyping := 0, zonel := 0, zoner := 0, zoneb := 0, zonet := 0,
    z_finger := 30, momentumscroll := true, momentumscrolltimer := 10000000,
    momentumscrollsamplesmin := 3, maxtaptime := 0, clicking := false,
    immediateclick := false, rtap := false, swapdoubletriple := false,
    dragging := false, draglock := false, dragexitdelay := 0,
    maxdragtime := 0, maxdbltaptime := 0, tapthreshx := 0, tapthreshy := 0,
    dblthreshx := 0, dblthreshy := 0, divisorx := 1, divisory := 1,
    bogusdxthresh := 0, bogusdythresh := 0, wsticky := false, palm := false,
    zlimit := 0, palm_wt := false, wvdivisor := 1, whdivisor := 1,
    hscroll := false, scroll := false, scrolldxthresh := 0,
    scrolldythresh := 0, swipedx := 0, swipedy := 0, vsticky := false,
    hsticky := false, redge := 0, bedge := 0, ledge := 0, tedge := 0,
    centerx := 0, centery := 0, cscrolldivisor := 0, vscrolldivisor := 0,
    hscrolldivisor := 0, ctrigger := 0, draglocktempmask := 0,
    modifierdown := 0, keytime := 0, hasDragTimer := false }

/-- Concrete `MultiTouch` state holding exactly 3 vertical-delta samples
(the configured minimum) over a non-zero time window. -/
def stMomentumMin : TouchpadState Unit :=
  { touchmode := TouchMode.mtouch, lastbuttons := 0, passbuttons := 0,
    last_fingers := 2, ignoredeltas := 0, x_undo := (), y_undo := (),
    x_avg := (), y_avg := (), lastx := 0, lasty := 0, lastx2 := 0,
    lasty2 := 0, lastz := 0, xrest := 0, yrest := 0, scrollrest := 0,
    inSwipeLeft := false, inSwipeRight := false, inSwipeUp := false,
    inSwipeDown := false, inSwipe4Left := false, inSwipe4Right := false,
    inSwipe4Up := false, inSwipe4Down := false, xmoved := 0, ymoved := 0,
    untouchtime := 0, touchtime := 0, touchx := 0, touchy := 0,
    wasdouble := false, wastriple := false, tracksecondary := false,
    dy_history := [-5, -5, -5], time_history := [100, 200, 300],
    momentumscrollinterval := 0, momentumscrollsum := 0,
    momentumscrollcurrent := 0, momentumscrollrest1 := 0,
    momentumscrollrest2 := 0, draglocktemp := 0, ignoreall := false }

/-- Counterexample for C6 as stated: a release in `MultiTouch` whose
vertical-delta history holds exactly the configured minimum number of
samples (3) over a non-zero window schedules nothing — the code requires
strictly more than the minimum — and the whole sample emits only the
trailing zero-motion pointer event. -/
theorem claim_C6_counterexample :
    cfgMomentum.momentumscroll = true ∧
    cfgMomentum.momentumscrolltimer ≠ 0 ∧
    stMomentumMin.touchmode = TouchMode.mtouch ∧
    cfgMomentum.momentumscrollsamplesmin ≤ stMomentumMin.dy_history.length ∧
    stMomentumMin.time_history.getLastD 0 - stMomentumMin.time_history.headD 0 ≠ 0 ∧
    (0 : Int) < cfgMomentum.z_finger ∧
    (dispatchEventsWithInfo mbId fopsUnit cfgMomentum stMomentumMin
      0 0 0 0 0 1000000000).2 = [Event.rel 0 0 0] := by
  refine ⟨rfl, by decide, rfl, by decide, by decide, by decide, ?_⟩
  decide

/-- Concrete `MultiTouch` state holding 4 vertical-delta samples, strictly
more than the configured minimum. -/
def stMomentumMore : TouchpadState Unit :=
  { stMomentumMin with
    dy_history := [-5, -5, -5, -5]
    time_history := [100, 200, 300, 400] }

/-- Witness for C6 (amended): with 4 samples the momentum continuation is
scheduled. -/
theorem claim_C6_witness :
    stMomentumMore.touchmode = TouchMode.mtouch ∧
    cfgMomentum.momentumscrollsamplesmin < stMomentumMore.dy_history.length ∧
    Event.setScrollTimer cfgMomentum.momentumscrolltimer ∈
      (dispatchEventsWithInfo mbId fopsUnit cfgMomentum stMomentumMore
        0 0 0 0 0 1000000000).2 :=
  ⟨rfl, by decide,
   claim_C6 mbId fopsUnit cfgMomentum stMomentumMore 0 0 0 0 0 1000000000
     rfl rfl (by decide) (by decide) (by decide) (by decide) rfl rfl⟩

/-- C10: a valid V3 trackstick packet latches the ignore-all flag exactly
when it reports non-zero motion (after the spike filter), clears it on
zero motion; and while the flag is set every touchpad absolute sample is
dropped: `dispatchEventsWithInfo` emits no event, leaves the gesture mode
unchanged and keeps the flag set (only a zero-motion trackstick packet can
clear it). -/
theorem claim_C10 {σ : Type} (md : AlpsData) (st : TouchpadState σ)
    (p : List Nat) (mb : Nat → Nat → Nat) (fops : FilterOps σ)
    (cfg : GestureConfig) (xraw yraw z : Int) (fingers braw : Nat)
    (now_ns : Nat) :
    (pb p 0 &&& 0x40 ≠ 0 → ¬(pb p 1 = 0x7f ∧ pb p 2 = 0x7f ∧ pb p 3 = 0x7f) →
      (trackstickMotion p ≠ (0, 0) →
        (processTrackstickPacketV3 md st p).2.1.ignoreall = true) ∧
      (trackstickMotion p = (0, 0) →
        (processTrackstickPacketV3 md st p).2.1.ignoreall = false)) ∧
    (st.ignoreall = true →
      (dispatchEventsWithInfo mb fops cfg st xraw yraw z fingers braw
        now_ns).2 = [] ∧
      (dispatchEventsWithInfo mb fops cfg st xraw yraw z fingers braw
        now_ns).1.touchmode = st.touchmode ∧
      (dispatchEventsWithInfo mb fops cfg st xraw yraw z fingers braw
        now_ns).1.ignoreall = true) := by
  constructor
  · intro h1 h2
    unfold processTrackstickPacketV3
    rw [if_neg h1, if_neg h2]
    dsimp only
    constructor
    · intro hne
      have hor : (trackstickMotion p).1 ≠ 0 ∨ (trackstickMotion p).2 ≠ 0 := by
        by_contra hc
        push_neg at hc
        exact hne (Prod.ext hc.1 hc.2)
      rw [if_pos hor]
      split_ifs <;> rfl
    · intro hzz
      have hnor : ¬((trackstickMotion p).1 ≠ 0 ∨ (trackstickMotion p).2 ≠ 0) := by
        rw [hzz]
        simp
      rw [if_neg hnor]
      split_ifs <;> rfl
  · intro hig
    have hpre : (dispatchPre mb fops cfg st xraw yraw fingers braw).st.ignoreall =
        st.ignoreall := rfl
    have hprem : (dispatchPre mb fops cfg st xraw yraw fingers braw).st.touchmode =
        st.touchmode := rfl
    unfold dispatchEventsWithInfo
    dsimp only
    split_ifs with hc1 hc2
    · exact ⟨rfl, hprem, hpre.trans hig⟩
    · exact ⟨rfl, hprem, hpre.trans hig⟩
    · exact absurd (hpre.trans hig) hc2

/-- Witness for C10: a valid trackstick packet with x-delta 1 latches the
ignore-all flag. -/
theorem claim_C10_witness :
    pb [0x40, 1, 0, 0, 0, 0x3f] 0 &&& 0x40 ≠ 0 ∧
    trackstickMotion [0x40, 1, 0, 0, 0, 0x3f] ≠ (0, 0) ∧
    (processTrackstickPacketV3 mdV3fresh stMomentumMin
      [0x40, 1, 0, 0, 0, 0x3f]).2.1.ignoreall = true :=
  ⟨by decide, by decide,
   ((claim_C10 mdV3fresh stMomentumMin [0x40, 1, 0, 0, 0, 0x3f] mbId fopsUnit
       cfgMomentum 0 0 0 0 0 0).1 (by decide) (by decide)).1 (by decide)⟩

end Alps
